import Mathlib

/-!
# FeedbackPrioritizer: classification, batching and report filtering

A shallow embedding of the feedback pipeline of the dashboard:

* `Pages/BulkUpload.jsx`     : `handleFileChange`, `processFile` (extraction, per-entry
  classification, grouping), `saveToDatabase`
* `Pages/SubmitFeedback.jsx` : `handleSubmit` (classification of one form, persistence)
* `Pages/GenerateReport.jsx` : `generateReport` (date filter, statistics, persistence)
* `Pages/Statistics.jsx`     : `getUrgencyData`, `getCategoryData`, `getSentimentData`,
  `getTrendData`
* `Pages/Dashboard.jsx`      : `getSentimentCounts`, `getUrgencyCount`, the widths of the
  sentiment bars

External capabilities (`InvokeLLM`, `UploadFile`, `ExtractDataFromUploadedFile`,
`Feedback.create`, `Feedback.list`, `Report.create`) are parameters: each call either
throws or returns a value.
React state is passed explicitly; a `setX(v)` call is a record update.
-/

namespace FeedbackPrioritizer

/-! ## JavaScript values -/

/-- The JavaScript values an external call can hand back (JSON values and `undefined`). -/
inductive JSVal where
  | undefined
  | null
  | bool (b : Bool)
  | num (n : Int)
  | str (s : String)
  | arr (items : List JSVal)
  | obj (props : List (String × JSVal))

namespace JSVal

/-- The first property called `key` in a property list, `undefined` when there is none. -/
def lookup (key : String) : List (String × JSVal) → JSVal
  | [] => undefined
  | (k, v) :: rest => if k = key then v else lookup key rest

/-- Property read `v.key`: a `TypeError` on `undefined` and `null`, the property of an
object, and `undefined` for every other value (none of them carries the keys read here). -/
def getProp (v : JSVal) (key : String) : Except String JSVal :=
  match v with
  | undefined => .error "TypeError: Cannot read properties of undefined"
  | null => .error "TypeError: Cannot read properties of null"
  | obj props => .ok (lookup key props)
  | _ => .ok undefined

/-- The comparison `v === "lit"` against a string literal. -/
def strictEqStr (v : JSVal) (lit : String) : Bool :=
  match v with
  | str s => decide (s = lit)
  | _ => false

end JSVal

/-- The operator `v || d` on an optional string property: `undefined` and `""` are falsy. -/
def orDefault (v : Option String) (d : String) : String :=
  match v with
  | some s => if s = "" then d else s
  | none => d

/-- The capability `InvokeLLM`: the outcome of call number `i` issued with a prompt.
Each call either throws (`.error`) or resolves to a value (`.ok`). -/
abbrev LLM := Nat → String → Except String JSVal

/-! ## Bulk upload (`Pages/BulkUpload.jsx`) -/

/-- One extracted entry, as the extraction schema declares it: three optional string
properties and the required `feedback_text`. -/
structure Entry where
  customer_name : Option String
  customer_email : Option String
  feedback_text : String
  source : Option String

/-- The object built for one feedback: the four input fields and the four derived fields,
the latter holding whatever value the classifier's response had under that key. -/
structure FeedbackData where
  customer_name : String
  customer_email : String
  feedback_text : String
  source : String
  urgency : JSVal
  impact : JSVal
  category : JSVal
  sentiment : JSVal

/-- The template literal `analysisPrompt` of `processFile`. -/
def bulkAnalysisPrompt (feedback_text : String) : String :=
  "Analyze this customer feedback and classify it:\n            \nFeedback: \"" ++
  feedback_text ++
  "\"\n\nProvide classification for:\n" ++
  "1. Urgency (high/medium/low) - How quickly does this need attention?\n" ++
  "2. Impact (high/medium/low) - How many customers does this affect?\n" ++
  "3. Category (bug/feature_request/ux_issue/pricing/other)\n" ++
  "4. Sentiment (positive/neutral/negative)"

/-- The object returned by the `catch` branch of the per-entry callback. -/
def fallbackRecord (entry : Entry) : FeedbackData :=
  { customer_name := orDefault entry.customer_name ""
    customer_email := orDefault entry.customer_email ""
    feedback_text := entry.feedback_text
    source := orDefault entry.source "other"
    urgency := .str "medium"
    impact := .str "medium"
    category := .str "other"
    sentiment := .str "neutral" }

/-- The `try` block of the per-entry callback: the classifier call, then the object
literal that reads the four properties of its result. -/
def classifyAttempt (llm : LLM) (i : Nat) (entry : Entry) : Except String FeedbackData := do
  let analysis ← llm i (bulkAnalysisPrompt entry.feedback_text)
  let urgency ← analysis.getProp "urgency"
  let impact ← analysis.getProp "impact"
  let category ← analysis.getProp "category"
  let sentiment ← analysis.getProp "sentiment"
  pure
    { customer_name := orDefault entry.customer_name ""
      customer_email := orDefault entry.customer_email ""
      feedback_text := entry.feedback_text
      source := orDefault entry.source "other"
      urgency := urgency
      impact := impact
      category := category
      sentiment := sentiment }

/-- The per-entry callback `async (entry) => { try { ... } catch (error) { ... } }`,
run as call number `i`. -/
def classifyEntry (llm : LLM) (i : Nat) (entry : Entry) : Except String FeedbackData :=
  match classifyAttempt llm i entry with
  | .ok record => .ok record
  | .error _ => .ok (fallbackRecord entry)

/-- The array method `map`, the callback receiving the position of each element,
counted from `start`. -/
def mapIdx {α β : Type} (f : Nat → α → β) (start : Nat) : List α → List β
  | [] => []
  | x :: xs => f start x :: mapIdx f (start + 1) xs

/-- The join `Promise.all`: rejects when one of the promises rejects, and otherwise
resolves to all results in the order of the promises. -/
def promiseAll {α : Type} : List (Except String α) → Except String (List α)
  | [] => .ok []
  | p :: ps =>
    match p with
    | .error e => .error e
    | .ok a =>
      match promiseAll ps with
      | .ok as => .ok (a :: as)
      | .error e => .error e

/-- The batch `await Promise.all(feedbackEntries.map(async (entry) => ...))`. -/
def classifyBatch (llm : LLM) (feedbackEntries : List Entry) : Except String (List FeedbackData) :=
  promiseAll (mapIdx (classifyEntry llm) 0 feedbackEntries)

/-- The object `grouped`. -/
structure Grouped where
  high : List FeedbackData
  medium : List FeedbackData
  low : List FeedbackData

/-- The object handed to `setResults`. -/
structure Results where
  total : Nat
  grouped : Grouped
  all : List FeedbackData

/-- The grouping by urgency: three `filter` calls over `classifiedFeedback`. -/
def groupByUrgency (classifiedFeedback : List FeedbackData) : Grouped :=
  { high := classifiedFeedback.filter (fun f => f.urgency.strictEqStr "high")
    medium := classifiedFeedback.filter (fun f => f.urgency.strictEqStr "medium")
    low := classifiedFeedback.filter (fun f => f.urgency.strictEqStr "low") }

/-- The argument of `setResults`. -/
def mkResults (classifiedFeedback : List FeedbackData) : Results :=
  { total := classifiedFeedback.length
    grouped := groupByUrgency classifiedFeedback
    all := classifiedFeedback }

/-- A selected file: its name. -/
structure File where
  name : String

/-- The value `ExtractDataFromUploadedFile` resolves to. -/
structure ExtractionResult where
  status : String
  output : Option (List Entry)
  details : Option String

/-- The external capabilities `processFile` calls. -/
structure BulkEnv where
  UploadFile : File → Except String String
  ExtractDataFromUploadedFile : String → Except String ExtractionResult
  InvokeLLM : LLM

/-- The component state of `BulkUpload`. -/
structure BulkState where
  file : Option File
  isProcessing : Bool
  results : Option Results
  error : Option String
  isSaving : Bool
  saved : Bool

/-- How a block of statements ends: with a `return` out of the function, or by running
to its last statement. -/
inductive Flow (σ : Type) where
  | returned (s : σ)
  | completed (s : σ)

/-- The `try` block of `processFile`, entered in state `st`. -/
def processFileTry (env : BulkEnv) (file : File) (st : BulkState) :
    Except String (Flow BulkState) := do
  let file_url ← env.UploadFile file
  let extractionResult ← env.ExtractDataFromUploadedFile file_url
  if extractionResult.status = "error" then
    pure (.returned
      { st with
        error := some (orDefault extractionResult.details
          "Failed to extract data from file. Please ensure your file has the correct format.")
        isProcessing := false })
  else
    let feedbackEntries := extractionResult.output.getD []
    if feedbackEntries.length = 0 then
      pure (.returned
        { st with
          error := some "No feedback entries found in the file. Please check your file format."
          isProcessing := false })
    else do
      let classifiedFeedback ← classifyBatch env.InvokeLLM feedbackEntries
      pure (.completed { st with results := some (mkResults classifiedFeedback) })

/-- The handler `processFile`. -/
def processFile (env : BulkEnv) (st : BulkState) : BulkState :=
  match st.file with
  | none => st
  | some file =>
    let st1 := { st with isProcessing := true, error := none }
    match processFileTry env file st1 with
    | .ok (.returned s) => s
    | .ok (.completed s) => { s with isProcessing := false }
    | .error _ =>
      { st1 with
        error := some
          "An error occurred while processing the file. Please ensure your file is properly formatted."
        isProcessing := false }

/-- The record the per-entry callback resolves to: the object of the `try` block when it
runs through, the object of the `catch` block when it throws. -/
def recordOf (llm : LLM) (i : Nat) (entry : Entry) : FeedbackData :=
  match classifyAttempt llm i entry with
  | .ok record => record
  | .error _ => fallbackRecord entry

/-- The run of `processFile` reaches the classification of `feedbackEntries`: a file is
selected, upload and extraction resolve, the extraction status is not `"error"` and its
output is the non-empty list `feedbackEntries`. -/
def ReachesClassification (env : BulkEnv) (st : BulkState) (feedbackEntries : List Entry) :
    Prop :=
  ∃ file file_url extractionResult,
    st.file = some file ∧
    env.UploadFile file = .ok file_url ∧
    env.ExtractDataFromUploadedFile file_url = .ok extractionResult ∧
    extractionResult.status ≠ "error" ∧
    extractionResult.output = some feedbackEntries ∧
    feedbackEntries ≠ []

/-- Membership of a value in the enum of `urgency` and of `impact`. -/
def IsLevel (v : JSVal) : Prop :=
  v = .str "high" ∨ v = .str "medium" ∨ v = .str "low"

/-- Membership of a value in the enum of `category`. -/
def IsCategory (v : JSVal) : Prop :=
  v = .str "bug" ∨ v = .str "feature_request" ∨ v = .str "ux_issue" ∨ v = .str "pricing" ∨
    v = .str "other"

/-- Membership of a value in the enum of `sentiment`. -/
def IsSentiment (v : JSVal) : Prop :=
  v = .str "positive" ∨ v = .str "neutral" ∨ v = .str "negative"

/-- A property value the `response_json_schema` admits under a key with the given enum:
the property is absent (the schema lists no `required` key), or a string of the enum. -/
def admitsProp (enum : List String) (v : JSVal) : Bool :=
  match v with
  | .undefined => true
  | .str s => decide (s ∈ enum)
  | _ => false

/-- The `response_json_schema` passed to `InvokeLLM` by `processFile` and `handleSubmit`:
type `object`, with the four enumerated string properties and no `required` list. -/
def matchesResponseSchema (v : JSVal) : Bool :=
  match v with
  | .obj props =>
    admitsProp ["high", "medium", "low"] (JSVal.lookup "urgency" props) &&
    admitsProp ["high", "medium", "low"] (JSVal.lookup "impact" props) &&
    admitsProp ["bug", "feature_request", "ux_issue", "pricing", "other"]
      (JSVal.lookup "category" props) &&
    admitsProp ["positive", "neutral", "negative"] (JSVal.lookup "sentiment" props)
  | _ => false

/-! ## Single submission (`Pages/SubmitFeedback.jsx`) -/

/-- The state `formData`. -/
structure FormData where
  customer_name : String
  customer_email : String
  feedback_text : String
  source : String

/-- The template literal `analysisPrompt` of `handleSubmit`. -/
def submitAnalysisPrompt (feedback_text : String) : String :=
  "Analyze this customer feedback and classify it:\n      \nFeedback: \"" ++
  feedback_text ++
  "\"\n\nProvide classification for:\n" ++
  "1. Urgency (high/medium/low) - How quickly does this need attention?\n" ++
  "2. Impact (high/medium/low) - How many customers does this affect?\n" ++
  "3. Category (bug/feature_request/ux_issue/pricing/other)\n" ++
  "4. Sentiment (positive/neutral/negative)\n\nBe thorough in your analysis."

/-- The external capabilities `handleSubmit` calls; `FeedbackCreate` is `Feedback.create`,
which throws or resolves. -/
structure SubmitEnv where
  InvokeLLM : LLM
  FeedbackCreate : FeedbackData → Except String Unit

/-- The component state of `SubmitFeedback`, together with the effects of the run on the
persistence collaborator: `createCalls` lists the arguments of the `Feedback.create` calls
issued so far, `persisted` those of the calls that resolved. -/
structure SubmitState where
  formData : FormData
  isProcessing : Bool
  showSuccess : Bool
  createCalls : List FeedbackData
  persisted : List FeedbackData

/-- The argument `{ ...formData, urgency: analysis.urgency, ... }` of `Feedback.create`. -/
def submitRecord (formData : FormData) (analysis : JSVal) : Except String FeedbackData := do
  let urgency ← analysis.getProp "urgency"
  let impact ← analysis.getProp "impact"
  let category ← analysis.getProp "category"
  let sentiment ← analysis.getProp "sentiment"
  pure
    { customer_name := formData.customer_name
      customer_email := formData.customer_email
      feedback_text := formData.feedback_text
      source := formData.source
      urgency := urgency
      impact := impact
      category := category
      sentiment := sentiment }

/-- The handler `handleSubmit` (the delayed navigation to the dashboard is left out). -/
def handleSubmit (env : SubmitEnv) (st : SubmitState) : SubmitState :=
  let st1 := { st with isProcessing := true }
  let afterTry : SubmitState :=
    match env.InvokeLLM 0 (submitAnalysisPrompt st1.formData.feedback_text) with
    | .error _ => st1
    | .ok analysis =>
      match submitRecord st1.formData analysis with
      | .error _ => st1
      | .ok record =>
        let st2 := { st1 with createCalls := st1.createCalls ++ [record] }
        match env.FeedbackCreate record with
        | .error _ => st2
        | .ok _ => { st2 with persisted := st2.persisted ++ [record], showSuccess := true }
  { afterTry with isProcessing := false }

/-! ## Report window (`Pages/GenerateReport.jsx`) -/

/-- Milliseconds in one day. -/
def msPerDay : Int := 86400000

/-- The state `dateRange`: two `yyyy-MM-dd` strings, each held as the number of its
calendar day counted from 1970-01-01. -/
structure DateRange where
  start : Int
  end_ : Int

/-- The time value of `new Date("yyyy-MM-dd")`: midnight UTC of that calendar day. -/
def dateOnlyTime (day : Int) : Int := day * msPerDay

/-- The calendar day (UTC) a time value falls on. -/
def calendarDay (time : Int) : Int := time / msPerDay

/-- A persisted feedback as `Feedback.list` returns it; `created_date` holds the time
value of `new Date(f.created_date)` in milliseconds since the epoch. -/
structure FeedbackRecord where
  created_date : Int
  customer_name : JSVal
  customer_email : JSVal
  feedback_text : JSVal
  source : JSVal
  urgency : JSVal
  impact : JSVal
  category : JSVal
  sentiment : JSVal

/-- The predicate of the filter in `generateReport`. -/
def inDateRange (dateRange : DateRange) (f : FeedbackRecord) : Bool :=
  let feedbackDate := f.created_date
  let startDate := dateOnlyTime dateRange.start
  let endDate := dateOnlyTime dateRange.end_
  decide (feedbackDate ≥ startDate) && decide (feedbackDate ≤ endDate)

/-- The list `feedbackInRange` of `generateReport`. -/
def feedbackInRange (dateRange : DateRange) (allFeedback : List FeedbackRecord) :
    List FeedbackRecord :=
  allFeedback.filter (inDateRange dateRange)

/-! ## Truthiness and property keys -/

namespace JSVal

/-- The truth value of `v` in a condition (`if (v)`, `v || d`). Numbers are integers here,
so `0` is the only falsy number. -/
def truthy : JSVal → Bool
  | undefined => false
  | null => false
  | bool b => b
  | num n => decide (n ≠ 0)
  | str s => decide (s ≠ "")
  | arr _ => true
  | obj _ => true

/-- The operator `v || d`. -/
def orElse (v d : JSVal) : JSVal := if v.truthy then v else d

/-- The values `undefined` and `null`. -/
def isNullish : JSVal → Bool
  | undefined => true
  | null => true
  | _ => false

mutual
/-- The property key that `counts[v]` addresses: the string of `v`. An array is the
comma-joined strings of its items, an object is `[object Object]`. -/
def toPropertyKey : JSVal → String
  | undefined => "undefined"
  | null => "null"
  | bool b => if b then "true" else "false"
  | num n => toString n
  | str s => s
  | arr items => joinKeys items
  | obj _ => "[object Object]"
/-- The method `join(",")` of an array: `undefined` and `null` items give the empty string. -/
def joinKeys : List JSVal → String
  | [] => ""
  | v :: rest =>
    (if v.isNullish then "" else toPropertyKey v) ++
      (if rest.isEmpty then "" else "," ++ joinKeys rest)
end

end JSVal

/-! ## Report generation (`Pages/GenerateReport.jsx`) -/

/-- The object `sentiment` of the report statistics. -/
structure SentimentCounts where
  positive : Nat
  neutral : Nat
  negative : Nat
  deriving DecidableEq

/-- The object `stats`. -/
structure ReportStats where
  total : Nat
  highUrgency : Nat
  sentiment : SentimentCounts
  deriving DecidableEq

/-- The state `generatedReport`. -/
structure GeneratedReport where
  markdown : JSVal
  stats : ReportStats

/-- The argument of `Report.create`; the two dates are the strings of `dateRange`, held as
day numbers. -/
structure Report where
  week_start_date : Int
  week_end_date : Int
  report_markdown : JSVal
  total_feedback_count : Nat
  high_urgency_count : Nat
  sentiment_summary : SentimentCounts

/-- One item of `feedbackSummary`; `date` holds the time value that is formatted as
`MMM d, yyyy`. -/
structure SummaryItem where
  text : JSVal
  customer : JSVal
  urgency : JSVal
  impact : JSVal
  category : JSVal
  sentiment : JSVal
  date : Int

/-- The values interpolated into the template literal `prompt`: the number of entries, the
summary list that is serialised into it, and the two dates of the heading. -/
structure ReportPrompt where
  count : Nat
  feedbackSummary : List SummaryItem
  start : Int
  end_ : Int

/-- The list `feedbackSummary`. -/
def feedbackSummary (feedbackInRange : List FeedbackRecord) : List SummaryItem :=
  feedbackInRange.map fun f =>
    { text := f.feedback_text
      customer := f.customer_name.orElse (.str "Anonymous")
      urgency := f.urgency.orElse (.str "unknown")
      impact := f.impact.orElse (.str "unknown")
      category := f.category.orElse (.str "unknown")
      sentiment := f.sentiment.orElse (.str "unknown")
      date := f.created_date }

/-- The prompt built for the filtered records. -/
def reportPrompt (dateRange : DateRange) (feedbackInRange : List FeedbackRecord) :
    ReportPrompt :=
  { count := feedbackInRange.length
    feedbackSummary := feedbackSummary feedbackInRange
    start := dateRange.start
    end_ := dateRange.end_ }

/-- The object `stats` computed from the filtered records. -/
def reportStats (feedbackInRange : List FeedbackRecord) : ReportStats :=
  { total := feedbackInRange.length
    highUrgency := (feedbackInRange.filter (fun f => f.urgency.strictEqStr "high")).length
    sentiment :=
      { positive := (feedbackInRange.filter (fun f => f.sentiment.strictEqStr "positive")).length
        neutral := (feedbackInRange.filter (fun f => f.sentiment.strictEqStr "neutral")).length
        negative :=
          (feedbackInRange.filter (fun f => f.sentiment.strictEqStr "negative")).length } }

/-- The report set when no feedback is in range. -/
def placeholderReport : GeneratedReport :=
  { markdown :=
      .str "# No Feedback Available\n\nNo feedback entries found for the selected date range."
    stats := { total := 0, highUrgency := 0,
               sentiment := { positive := 0, neutral := 0, negative := 0 } } }

/-- The external capabilities `generateReport` calls: `FeedbackList` is
`Feedback.list("-created_date")`, `InvokeLLM` the narrative generation, `ReportCreate` is
`Report.create`. -/
structure ReportEnv where
  FeedbackList : Except String (List FeedbackRecord)
  InvokeLLM : ReportPrompt → Except String JSVal
  ReportCreate : Report → Except String Unit

/-- The component state of `GenerateReport`, together with the effects of the runs on the
collaborators: `narrativeCalls` lists the prompts of the `InvokeLLM` calls issued so far,
`createCalls` the arguments of the `Report.create` calls issued, `persisted` those of the
calls that resolved. -/
structure ReportState where
  dateRange : DateRange
  isGenerating : Bool
  generatedReport : Option GeneratedReport
  copied : Bool
  narrativeCalls : List ReportPrompt
  createCalls : List Report
  persisted : List Report

/-- The handler `generateReport`. -/
def generateReport (env : ReportEnv) (st : ReportState) : ReportState :=
  let st1 := { st with isGenerating := true }
  match env.FeedbackList with
  | .error _ => { st1 with isGenerating := false }
  | .ok allFeedback =>
    let inRange := feedbackInRange st1.dateRange allFeedback
    if inRange.length = 0 then
      { st1 with generatedReport := some placeholderReport, isGenerating := false }
    else
      let prompt := reportPrompt st1.dateRange inRange
      let st2 := { st1 with narrativeCalls := st1.narrativeCalls ++ [prompt] }
      match env.InvokeLLM prompt with
      | .error _ => { st2 with isGenerating := false }
      | .ok reportMarkdown =>
        let stats := reportStats inRange
        let report : Report :=
          { week_start_date := st2.dateRange.start
            week_end_date := st2.dateRange.end_
            report_markdown := reportMarkdown
            total_feedback_count := stats.total
            high_urgency_count := stats.highUrgency
            sentiment_summary := stats.sentiment }
        let st3 := { st2 with createCalls := st2.createCalls ++ [report] }
        match env.ReportCreate report with
        | .error _ => { st3 with isGenerating := false }
        | .ok _ =>
          { st3 with
            persisted := st3.persisted ++ [report]
            generatedReport := some { markdown := reportMarkdown, stats := stats }
            isGenerating := false }

/-! ## Statistics (`Pages/Statistics.jsx`, `Pages/Dashboard.jsx`) -/

/-- One item of a chart series. -/
structure ChartEntry where
  name : String
  value : Nat
  color : String
  deriving DecidableEq

/-- The object `counts` of `getUrgencyData`. -/
structure UrgencyCounts where
  high : Nat
  medium : Nat
  low : Nat

/-- The object `counts` of `getCategoryData`. -/
structure CategoryCounts where
  bug : Nat
  feature_request : Nat
  ux_issue : Nat
  pricing : Nat
  other : Nat

/-- The statement `counts[key]++` on the urgency counts; a key other than the three adds
a property that is never read. -/
def UrgencyCounts.increment (counts : UrgencyCounts) (key : String) : UrgencyCounts :=
  if key = "high" then { counts with high := counts.high + 1 }
  else if key = "medium" then { counts with medium := counts.medium + 1 }
  else if key = "low" then { counts with low := counts.low + 1 }
  else counts

/-- The statement `counts[key]++` on the category counts. -/
def CategoryCounts.increment (counts : CategoryCounts) (key : String) : CategoryCounts :=
  if key = "bug" then { counts with bug := counts.bug + 1 }
  else if key = "feature_request" then
    { counts with feature_request := counts.feature_request + 1 }
  else if key = "ux_issue" then { counts with ux_issue := counts.ux_issue + 1 }
  else if key = "pricing" then { counts with pricing := counts.pricing + 1 }
  else if key = "other" then { counts with other := counts.other + 1 }
  else counts

/-- The statement `counts[key]++` on the sentiment counts. -/
def SentimentCounts.increment (counts : SentimentCounts) (key : String) : SentimentCounts :=
  if key = "positive" then { counts with positive := counts.positive + 1 }
  else if key = "neutral" then { counts with neutral := counts.neutral + 1 }
  else if key = "negative" then { counts with negative := counts.negative + 1 }
  else counts

/-- The loop `feedback.forEach(f => { if (f.urgency) counts[f.urgency]++; })`. -/
def tallyUrgency (feedback : List FeedbackRecord) : UrgencyCounts :=
  feedback.foldl
    (fun counts f =>
      if f.urgency.truthy then counts.increment f.urgency.toPropertyKey else counts)
    { high := 0, medium := 0, low := 0 }

/-- The loop `feedback.forEach(f => { if (f.category) counts[f.category]++; })`. -/
def tallyCategory (feedback : List FeedbackRecord) : CategoryCounts :=
  feedback.foldl
    (fun counts f =>
      if f.category.truthy then counts.increment f.category.toPropertyKey else counts)
    { bug := 0, feature_request := 0, ux_issue := 0, pricing := 0, other := 0 }

/-- The loop `feedback.forEach(f => { if (f.sentiment) counts[f.sentiment]++; })`. -/
def tallySentiment (feedback : List FeedbackRecord) : SentimentCounts :=
  feedback.foldl
    (fun counts f =>
      if f.sentiment.truthy then counts.increment f.sentiment.toPropertyKey else counts)
    { positive := 0, neutral := 0, negative := 0 }

/-- The function `getUrgencyData` of `Statistics`. -/
def getUrgencyData (feedback : List FeedbackRecord) : List ChartEntry :=
  let counts := tallyUrgency feedback
  [ { name := "High", value := counts.high, color := "#dc2626" },
    { name := "Medium", value := counts.medium, color := "#f59e0b" },
    { name := "Low", value := counts.low, color := "#3b82f6" } ]

/-- The function `getCategoryData` of `Statistics`. -/
def getCategoryData (feedback : List FeedbackRecord) : List ChartEntry :=
  let counts := tallyCategory feedback
  ([ { name := "Bug", value := counts.bug, color := "#ef4444" },
     { name := "Feature Request", value := counts.feature_request, color := "#a855f7" },
     { name := "UX Issue", value := counts.ux_issue, color := "#3b82f6" },
     { name := "Pricing", value := counts.pricing, color := "#10b981" },
     { name := "Other", value := counts.other, color := "#6b7280" } ] : List ChartEntry).filter
    (fun item => decide (item.value > 0))

/-- The function `getSentimentData` of `Statistics`. -/
def getSentimentData (feedback : List FeedbackRecord) : List ChartEntry :=
  let counts := tallySentiment feedback
  [ { name := "Positive", value := counts.positive, color := "#10b981" },
    { name := "Neutral", value := counts.neutral, color := "#f59e0b" },
    { name := "Negative", value := counts.negative, color := "#ef4444" } ]

/-- The function `getSentimentCounts` of `Dashboard`. -/
def getSentimentCounts (feedback : List FeedbackRecord) : SentimentCounts :=
  tallySentiment feedback

/-- The time zone of the browser: the local calendar day, counted from 1970-01-01, on
which a time value falls. -/
abbrev TimeZone := Int → Int

/-- One item of `last7Days`; `date` holds the local calendar day whose `MMM d` label the
item carries. -/
structure TrendEntry where
  date : Int
  positive : Nat
  neutral : Nat
  negative : Nat
  deriving DecidableEq

/-- The body of the loop of `getTrendData` for one value of `i`, `now` being the time value
of `new Date()` in that iteration: `date` is the start of the local day `i` days before
today, `dayFeedback` the records created on that local day. -/
def trendEntry (localDay : TimeZone) (now : Int) (feedback : List FeedbackRecord) (i : Nat) :
    TrendEntry :=
  let date := localDay now - (i : Int)
  let dayFeedback := feedback.filter (fun f => decide (localDay f.created_date = date))
  { date := date
    positive := (dayFeedback.filter (fun f => f.sentiment.strictEqStr "positive")).length
    neutral := (dayFeedback.filter (fun f => f.sentiment.strictEqStr "neutral")).length
    negative := (dayFeedback.filter (fun f => f.sentiment.strictEqStr "negative")).length }

/-- The loop `for (let i = 6; i >= 0; i--) { ...; last7Days.push(...) }`, entered with
the counter at `i`; `clock i` is the time value `new Date()` yields in the iteration with
counter `i`. -/
def trendLoop (localDay : TimeZone) (clock : Nat → Int) (feedback : List FeedbackRecord) :
    Nat → List TrendEntry → List TrendEntry
  | 0, last7Days => last7Days ++ [trendEntry localDay (clock 0) feedback 0]
  | i + 1, last7Days =>
    trendLoop localDay clock feedback i
      (last7Days ++ [trendEntry localDay (clock (i + 1)) feedback (i + 1)])

/-- The function `getTrendData` of `Statistics`. -/
def getTrendData (localDay : TimeZone) (clock : Nat → Int) (feedback : List FeedbackRecord) :
    List TrendEntry :=
  trendLoop localDay clock feedback 6 []

/-! ## File selection and saving (`Pages/BulkUpload.jsx`) -/

/-- The text after the last "." of a name read so far, `segment` holding the characters
since the last "." in reverse. -/
def afterLastDot : List Char → List Char → List Char
  | [], segment => segment.reverse
  | c :: rest, segment =>
    if c = '.' then afterLastDot rest [] else afterLastDot rest (c :: segment)

/-- The expression `name.split(".").pop()`: the text after the last "." of the name, the
whole name when it has none. -/
def splitPop (name : String) : String := String.mk (afterLastDot name.data [])

/-- The method `toLowerCase`, on the letters A to Z. No other character has a lower case
among the letters of "pdf" and "csv". -/
def toLowerCase (s : String) : String := String.mk (s.data.map Char.toLower)

/-- The handler `handleFileChange`, `selectedFile` being `e.target.files[0]`. -/
def handleFileChange (selectedFile : Option File) (st : BulkState) : BulkState :=
  match selectedFile with
  | none => st
  | some selectedFile =>
    let fileType := toLowerCase (splitPop selectedFile.name)
    if ¬ (fileType ∈ ["pdf", "csv"]) then
      { st with
        error := some
          ("Please upload a PDF or CSV file. Excel files are not supported - " ++
            "please convert to CSV first.")
        file := none }
    else
      { st with file := some selectedFile, error := none, results := none, saved := false }

/-- An external call issued by `processFile`. -/
inductive BulkCall where
  | upload (file : File)
  | extract (file_url : String)
  | classify (i : Nat) (prompt : String)

/-- The external calls a run of `processFile` issues, in the order of their start: the
upload, then the extraction, then one classifier call per extracted entry. -/
def processFileCalls (env : BulkEnv) (st : BulkState) : List BulkCall :=
  match st.file with
  | none => []
  | some file =>
    .upload file ::
      match env.UploadFile file with
      | .error _ => []
      | .ok file_url =>
        .extract file_url ::
          match env.ExtractDataFromUploadedFile file_url with
          | .error _ => []
          | .ok extractionResult =>
            if extractionResult.status = "error" then []
            else
              let feedbackEntries := extractionResult.output.getD []
              if feedbackEntries.length = 0 then []
              else
                mapIdx (fun i entry => .classify i (bulkAnalysisPrompt entry.feedback_text)) 0
                  feedbackEntries

/-- The handler `saveToDatabase`; `bulkCreate` is `Feedback.bulkCreate`, which throws or
resolves (the delayed navigation to the dashboard is left out). -/
def saveToDatabase (bulkCreate : List FeedbackData → Except String Unit) (st : BulkState) :
    BulkState :=
  match st.results with
  | none => st
  | some results =>
    let st1 := { st with isSaving := true }
    let afterTry : BulkState :=
      match bulkCreate results.all with
      | .ok _ => { st1 with saved := true }
      | .error _ => { st1 with error := some "Failed to save feedback to database" }
    { afterTry with isSaving := false }

/-- The arguments of the `Feedback.bulkCreate` calls a run of `saveToDatabase` issues. -/
def saveToDatabaseCalls (st : BulkState) : List (List FeedbackData) :=
  match st.results with
  | none => []
  | some results => [results.all]

/-! ## Dashboard (`Pages/Dashboard.jsx`) -/

/-- The function `getUrgencyCount` of `Dashboard`. -/
def getUrgencyCount (feedback : List FeedbackRecord) : Nat :=
  (feedback.filter (fun f => f.urgency.strictEqStr "high")).length

/-- The arithmetic of JavaScript numbers that a width expression uses, over the type `F`
of numbers (the IEEE doubles of the browser): the number of a count or of a literal, and
the operators `/` and `*`. -/
structure NumberOps (F : Type) where
  ofNat : Nat → F
  div : F → F → F
  mul : F → F → F

/-- The value of an expression, with the divisions evaluated to reach it, each as the
pair of its dividend and its divisor. -/
structure Evaluated (F : Type) where
  value : F
  divisions : List (Nat × Nat)

/-- The width expression of a sentiment bar,
`feedback.length ? (count / feedback.length * 100) : 0`. -/
def barWidth {F : Type} (ops : NumberOps F) (count : Nat) (feedback : List FeedbackRecord) :
    Evaluated F :=
  if feedback.length ≠ 0 then
    { value := ops.mul (ops.div (ops.ofNat count) (ops.ofNat feedback.length)) (ops.ofNat 100)
      divisions := [(count, feedback.length)] }
  else { value := ops.ofNat 0, divisions := [] }

/-- The widths of the three sentiment bars of `Dashboard`. -/
structure SentimentWidths (F : Type) where
  positive : Evaluated F
  neutral : Evaluated F
  negative : Evaluated F

/-- The three width expressions, over `sentimentCounts = getSentimentCounts()`. -/
def sentimentWidths {F : Type} (ops : NumberOps F) (feedback : List FeedbackRecord) :
    SentimentWidths F :=
  let sentimentCounts := getSentimentCounts feedback
  { positive := barWidth ops sentimentCounts.positive feedback
    neutral := barWidth ops sentimentCounts.neutral feedback
    negative := barWidth ops sentimentCounts.negative feedback }

/-- A numeric expression written out. -/
inductive NumberExpr where
  | lit (n : Nat)
  | div (a b : NumberExpr)
  | mul (a b : NumberExpr)
  deriving DecidableEq

/-- The arithmetic that writes every operation out instead of computing it. -/
def writtenOut : NumberOps NumberExpr :=
  { ofNat := .lit, div := .div, mul := .mul }

/-! ## Sample runs -/

/-- An entry with a name and a source. -/
def crashEntry : Entry :=
  { customer_name := some "Ana"
    customer_email := none
    feedback_text := "App crashes on login"
    source := some "email" }

/-- An entry whose `source` property is the empty string. -/
def exportEntry : Entry :=
  { customer_name := none
    customer_email := some "bo@example.com"
    feedback_text := "Export to CSV times out"
    source := some "" }

/-- An entry with the required property only. -/
def praiseEntry : Entry :=
  { customer_name := none
    customer_email := none
    feedback_text := "Love the new dashboard"
    source := none }

/-- A batch of three entries. -/
def threeEntries : List Entry := [crashEntry, exportEntry, praiseEntry]

/-- A complete classifier response. -/
def crashAnalysis : JSVal :=
  .obj [("urgency", .str "high"), ("impact", .str "high"), ("category", .str "bug"),
    ("sentiment", .str "negative")]

/-- Another complete classifier response. -/
def praiseAnalysis : JSVal :=
  .obj [("urgency", .str "low"), ("impact", .str "low"), ("category", .str "other"),
    ("sentiment", .str "positive")]

/-- A classifier whose second call throws. -/
def secondFails : LLM := fun i _ =>
  match i with
  | 0 => .ok crashAnalysis
  | 1 => .error "Network Error"
  | _ => .ok praiseAnalysis

/-- A classifier that answers the complete response `crashAnalysis` (urgency "high"),
except for its second call, which throws. -/
def highUnlessSecond : LLM := fun i _ =>
  match i with
  | 1 => .error "Network Error"
  | _ => .ok crashAnalysis

/-- A classifier response that carries `sentiment` only. -/
def sentimentOnly : JSVal := .obj [("sentiment", .str "positive")]

/-- A classifier that answers every call with `sentimentOnly`. -/
def sentimentOnlyLLM : LLM := fun _ _ => .ok sentimentOnly

/-- An environment in which upload and extraction resolve, the extraction yielding
`entries`, and classification is done by `llm`. -/
def bulkEnvOf (entries : List Entry) (llm : LLM) : BulkEnv :=
  { UploadFile := fun _ => .ok "https://files.example/feedback.csv"
    ExtractDataFromUploadedFile := fun _ =>
      .ok { status := "success", output := some entries, details := none }
    InvokeLLM := llm }

/-- The state of `BulkUpload` after a file was selected. -/
def selectedState : BulkState :=
  { file := some { name := "feedback.csv" }
    isProcessing := false
    results := none
    error := none
    isSaving := false
    saved := false }

/-- A record that is fully classified: each derived field is a member of its enum. -/
def FullyClassified (record : FeedbackData) : Prop :=
  IsLevel record.urgency ∧ IsLevel record.impact ∧ IsCategory record.category ∧
    IsSentiment record.sentiment

/-- A filled form. -/
def crashForm : FormData :=
  { customer_name := "Ana"
    customer_email := "ana@example.com"
    feedback_text := "App crashes on login"
    source := "email" }

/-- The state of `SubmitFeedback` holding `formData`, before any submission. -/
def freshSubmitState (formData : FormData) : SubmitState :=
  { formData := formData
    isProcessing := false
    showSuccess := false
    createCalls := []
    persisted := [] }

/-- An environment whose classifier answers `analysis` and whose persistence resolves. -/
def submitEnvOf (analysis : Except String JSVal) : SubmitEnv :=
  { InvokeLLM := fun _ _ => analysis
    FeedbackCreate := fun _ => .ok () }

/-- The week from Sunday 2024-01-14 (day 19736) to Saturday 2024-01-20 (day 19742). -/
def sampleWeek : DateRange := { start := 19736, end_ := 19742 }

/-- A feedback created on 2024-01-20 at 10:30:00 UTC. -/
def saturdayRecord : FeedbackRecord :=
  { created_date := 1705746600000
    customer_name := .str "Ana"
    customer_email := .str "ana@example.com"
    feedback_text := .str "App crashes on login"
    source := .str "email"
    urgency := .str "high"
    impact := .str "high"
    category := .str "bug"
    sentiment := .str "negative" }

/-- The number of records whose field is truthy and addresses the property `key` of a
counts object. -/
def keyCount (field : FeedbackRecord → JSVal) (key : String) (feedback : List FeedbackRecord) :
    Nat :=
  (feedback.filter
    (fun f => (field f).truthy && decide ((field f).toPropertyKey = key))).length

/-- The number of records that have a field set: neither `undefined` nor `null`. -/
def setCount (field : FeedbackRecord → JSVal) (feedback : List FeedbackRecord) : Nat :=
  (feedback.filter (fun f => !(field f).isNullish)).length

/-- A field value as the data model types it: unset, or a value of its enum. -/
def UnsetOr (IsMember : JSVal → Prop) (v : JSVal) : Prop :=
  v = .undefined ∨ v = .null ∨ IsMember v

/-- The sum of the values of a chart series. -/
def totalValue (series : List ChartEntry) : Nat :=
  (series.map (fun item => item.value)).sum

/-- A classified feedback created at the time value `created_date`. -/
def recordAt (created_date : Int) (urgency sentiment : String) : FeedbackRecord :=
  { created_date := created_date
    customer_name := .undefined
    customer_email := .undefined
    feedback_text := .str "Checkout is slow"
    source := .str "survey"
    urgency := .str urgency
    impact := .str "medium"
    category := .str "ux_issue"
    sentiment := .str sentiment }

/-- A feedback created on 2024-01-13 at 23:59:59.999 UTC, the day before `sampleWeek`. -/
def dayBeforeRecord : FeedbackRecord := recordAt 1705190399999 "low" "neutral"

/-- A feedback created on 2024-01-16 at 09:00 UTC. -/
def tuesdayRecord : FeedbackRecord := recordAt 1705395600000 "high" "negative"

/-- Five feedbacks of the week of `sampleWeek`, from Sunday 2024-01-14 to Thursday
2024-01-18 at 12:00 UTC: three positive, one neutral, one negative. -/
def fiveRecords : List FeedbackRecord :=
  [recordAt 1705233600000 "low" "positive", recordAt 1705320000000 "high" "negative",
    recordAt 1705406400000 "medium" "positive", recordAt 1705492800000 "low" "neutral",
    recordAt 1705579200000 "high" "positive"]

/-- An environment in which `Feedback.list` resolves to `allFeedback`, the narrative call
has the outcome `narrative`, and `Report.create` resolves. -/
def reportEnvOf (allFeedback : List FeedbackRecord) (narrative : Except String JSVal) :
    ReportEnv :=
  { FeedbackList := .ok allFeedback
    InvokeLLM := fun _ => narrative
    ReportCreate := fun _ => .ok () }

/-- An environment in which `Report.create` throws. -/
def reportEnvCreateFails (allFeedback : List FeedbackRecord) (narrative : JSVal) : ReportEnv :=
  { FeedbackList := .ok allFeedback
    InvokeLLM := fun _ => .ok narrative
    ReportCreate := fun _ => .error "Network Error" }

/-- The state of `GenerateReport` with the window `dateRange`, before any request. -/
def freshReportState (dateRange : DateRange) : ReportState :=
  { dateRange := dateRange
    isGenerating := false
    generatedReport := none
    copied := false
    narrativeCalls := []
    createCalls := []
    persisted := [] }

/-- The time zone UTC. -/
def utc : TimeZone := calendarDay

/-- A file of an accepted kind, its extension in upper case. -/
def csvFile : File := { name := "Feedback.Q1.CSV" }

/-- A file whose name has no "." at all. -/
def bareCsvFile : File := { name := "csv" }

/-- A file of another kind. -/
def xlsxFile : File := { name := "feedback.xlsx" }

/-- An environment in which the upload resolves and the extraction resolves to
`extractionResult`. -/
def bulkEnvExtract (extractionResult : ExtractionResult) (llm : LLM) : BulkEnv :=
  { UploadFile := fun _ => .ok "https://files.example/feedback.csv"
    ExtractDataFromUploadedFile := fun _ => .ok extractionResult
    InvokeLLM := llm }

/-- The state of `BulkUpload` after three entries were classified, before saving. -/
def classifiedState : BulkState :=
  { file := some { name := "feedback.csv" }
    isProcessing := false
    results := some (mkResults
      [recordOf secondFails 0 crashEntry, fallbackRecord exportEntry,
        recordOf secondFails 2 praiseEntry])
    error := none
    isSaving := false
    saved := false }

/-- A persisted feedback submitted without a name: `customer_name` is the empty string. -/
def anonymousRecord : FeedbackRecord :=
  { created_date := 1705395600000
    customer_name := .str ""
    customer_email := .str ""
    feedback_text := .str "Checkout is slow"
    source := .str "other"
    urgency := .str "high"
    impact := .undefined
    category := .str "ux_issue"
    sentiment := .str "negative" }

/-- A value that is a string. -/
def IsText (v : JSVal) : Prop := ∃ s, v = .str s

/-- The time zone UTC-05:00 (no daylight saving): local time is five hours behind UTC. -/
def utcMinus5 : TimeZone := fun time => (time - 18000000) / msPerDay

/-- A feedback created on 2024-01-14 at 04:00 UTC, which is 2024-01-13 at 23:00 in
UTC-05:00. -/
def lateEveningRecord : FeedbackRecord := recordAt 1705204800000 "low" "neutral"

/-! ## Auxiliary lemmas -/

theorem strictEqStr_iff (v : JSVal) (lit : String) :
    v.strictEqStr lit = true ↔ v = .str lit := by
  cases v <;> simp [JSVal.strictEqStr]

theorem classifyEntry_eq (llm : LLM) (i : Nat) (entry : Entry) :
    classifyEntry llm i entry = .ok (recordOf llm i entry) := by
  unfold classifyEntry recordOf
  cases classifyAttempt llm i entry <;> rfl

theorem mapIdx_length {α β : Type} (f : Nat → α → β) (start : Nat) (l : List α) :
    (mapIdx f start l).length = l.length := by
  induction l generalizing start with
  | nil => rfl
  | cons x xs ih => simp [mapIdx, ih]

theorem mapIdx_getElem? {α β : Type} (f : Nat → α → β) (start : Nat) (l : List α) (i : Nat) :
    (mapIdx f start l)[i]? = (l[i]?).map (f (start + i)) := by
  induction l generalizing start i with
  | nil => simp [mapIdx]
  | cons x xs ih =>
    cases i with
    | zero => simp [mapIdx]
    | succ k =>
      simp only [mapIdx, List.getElem?_cons_succ, ih]
      have h : start + 1 + k = start + (k + 1) := by omega
      rw [h]

theorem promiseAll_mapIdx_ok {α β : Type} (f : Nat → α → Except String β) (g : Nat → α → β)
    (hfg : ∀ i a, f i a = .ok (g i a)) (start : Nat) (l : List α) :
    promiseAll (mapIdx f start l) = .ok (mapIdx g start l) := by
  induction l generalizing start with
  | nil => rfl
  | cons x xs ih => simp [mapIdx, promiseAll, hfg, ih]

theorem classifyBatch_eq (llm : LLM) (feedbackEntries : List Entry) :
    classifyBatch llm feedbackEntries = .ok (mapIdx (recordOf llm) 0 feedbackEntries) :=
  promiseAll_mapIdx_ok _ _ (classifyEntry_eq llm) 0 feedbackEntries

theorem processFile_of_reaches (env : BulkEnv) (st : BulkState) (feedbackEntries : List Entry)
    (h : ReachesClassification env st feedbackEntries) :
    processFile env st =
      { st with
        isProcessing := false
        error := none
        results := some (mkResults (mapIdx (recordOf env.InvokeLLM) 0 feedbackEntries)) } := by
  obtain ⟨file, url, x, hfile, hup, hex, hstatus, hout, hne⟩ := h
  have hlen : feedbackEntries.length ≠ 0 := by
    intro h0
    exact hne (List.length_eq_zero.mp h0)
  simp [processFile, processFileTry, hfile, hup, hex, hstatus, hout, hlen, classifyBatch_eq,
    bind, Except.bind, pure, Except.pure]

theorem recordOf_of_throw (llm : LLM) (i : Nat) (entry : Entry) (err : String)
    (h : llm i (bulkAnalysisPrompt entry.feedback_text) = .error err) :
    recordOf llm i entry = fallbackRecord entry := by
  simp [recordOf, classifyAttempt, h, bind, Except.bind]

theorem recordOf_inputs (llm : LLM) (i : Nat) (entry : Entry) :
    (recordOf llm i entry).customer_name = orDefault entry.customer_name "" ∧
    (recordOf llm i entry).customer_email = orDefault entry.customer_email "" ∧
    (recordOf llm i entry).feedback_text = entry.feedback_text ∧
    (recordOf llm i entry).source = orDefault entry.source "other" := by
  unfold recordOf classifyAttempt
  cases llm i (bulkAnalysisPrompt entry.feedback_text) with
  | error e => simp [bind, Except.bind, fallbackRecord]
  | ok v =>
    cases v <;> simp [bind, Except.bind, fallbackRecord, JSVal.getProp, pure, Except.pure]

theorem filter_getElem?_of_getElem? {α : Type} (p : α → Bool) (l : List α) (i : Nat) (x : α)
    (hx : l[i]? = some x) (hp : p x = true) :
    (l.filter p)[((l.take i).filter p).length]? = some x := by
  induction l generalizing i with
  | nil => simp at hx
  | cons a as ih =>
    cases i with
    | zero =>
      simp at hx
      subst hx
      simp [List.filter, hp]
    | succ k =>
      simp only [List.getElem?_cons_succ] at hx
      have := ih k hx
      by_cases ha : p a = true
      · simp [List.take, List.filter, ha, this]
      · simp [List.take, List.filter, ha, this]

theorem filter_take_length_lt {α : Type} (p : α → Bool) (l : List α) (i j : Nat) (x : α)
    (hij : i < j) (hx : l[i]? = some x) (hp : p x = true) :
    ((l.take i).filter p).length < ((l.take j).filter p).length := by
  induction l generalizing i j with
  | nil => simp at hx
  | cons a as ih =>
    cases j with
    | zero => omega
    | succ m =>
      cases i with
      | zero =>
        simp at hx
        subst hx
        simp [List.take, List.filter, hp]
      | succ k =>
        simp only [List.getElem?_cons_succ] at hx
        have := ih k m (by omega) hx
        by_cases ha : p a = true
        · simp [List.take, List.filter, ha, this]
        · simp [List.take, List.filter, ha, this]

theorem reaches_bulkEnvOf (entries : List Entry) (llm : LLM) (hne : entries ≠ []) :
    ReachesClassification (bulkEnvOf entries llm) selectedState entries :=
  ⟨_, _, _, rfl, rfl, rfl, show "success" ≠ "error" by decide, rfl, hne⟩

theorem level_flags (v : JSVal) :
    (v.strictEqStr "high", v.strictEqStr "medium", v.strictEqStr "low") = (true, false, false) ∨
    (v.strictEqStr "high", v.strictEqStr "medium", v.strictEqStr "low") = (false, true, false) ∨
    (v.strictEqStr "high", v.strictEqStr "medium", v.strictEqStr "low") = (false, false, true) ∨
    ((v.strictEqStr "high", v.strictEqStr "medium", v.strictEqStr "low") = (false, false, false)
      ∧ ¬ IsLevel v) := by
  by_cases h1 : v = .str "high"
  · subst h1; left; decide
  · by_cases h2 : v = .str "medium"
    · subst h2; right; left; decide
    · by_cases h3 : v = .str "low"
      · subst h3; right; right; left; decide
      · right; right; right
        have e1 : v.strictEqStr "high" = false := by
          rw [Bool.eq_false_iff, Ne, strictEqStr_iff]; exact h1
        have e2 : v.strictEqStr "medium" = false := by
          rw [Bool.eq_false_iff, Ne, strictEqStr_iff]; exact h2
        have e3 : v.strictEqStr "low" = false := by
          rw [Bool.eq_false_iff, Ne, strictEqStr_iff]; exact h3
        refine ⟨by rw [e1, e2, e3], ?_⟩
        rintro (h | h | h)
        · exact h1 h
        · exact h2 h
        · exact h3 h

theorem bucket_sizes (l : List FeedbackData) :
    (groupByUrgency l).high.length + (groupByUrgency l).medium.length +
        (groupByUrgency l).low.length ≤ l.length ∧
    ((∀ f ∈ l, IsLevel f.urgency) →
      (groupByUrgency l).high.length + (groupByUrgency l).medium.length +
        (groupByUrgency l).low.length = l.length) := by
  induction l with
  | nil => simp [groupByUrgency]
  | cons a as ih =>
    obtain ⟨ih1, ih2⟩ := ih
    simp only [groupByUrgency] at ih1 ih2 ⊢
    rcases level_flags a.urgency with h | h | h | ⟨h, hn⟩ <;>
      simp only [Prod.mk.injEq] at h <;>
      obtain ⟨e1, e2, e3⟩ := h
    · simp only [List.filter_cons, e1, e2, e3, List.length_cons]
      refine ⟨by simp; omega, fun hall => ?_⟩
      have := ih2 (fun f hf => hall f (List.mem_cons_of_mem _ hf))
      simp; omega
    · simp only [List.filter_cons, e1, e2, e3, List.length_cons]
      refine ⟨by simp; omega, fun hall => ?_⟩
      have := ih2 (fun f hf => hall f (List.mem_cons_of_mem _ hf))
      simp; omega
    · simp only [List.filter_cons, e1, e2, e3, List.length_cons]
      refine ⟨by simp; omega, fun hall => ?_⟩
      have := ih2 (fun f hf => hall f (List.mem_cons_of_mem _ hf))
      simp; omega
    · simp only [List.filter_cons, e1, e2, e3, List.length_cons]
      refine ⟨by simp; omega, fun hall => ?_⟩
      exact absurd (hall a (List.mem_cons_self _ _)) hn

theorem mem_mapIdx {α β : Type} (f : Nat → α → β) (l : List α) (b : β)
    (hb : b ∈ mapIdx f 0 l) : ∃ i a, l[i]? = some a ∧ b = f i a := by
  obtain ⟨i, hi⟩ := List.mem_iff_getElem?.mp hb
  rw [mapIdx_getElem?] at hi
  cases hl : l[i]? with
  | none => simp [hl] at hi
  | some a =>
    refine ⟨i, a, hl, ?_⟩
    simp [hl] at hi
    exact hi.symm

theorem recordOf_derived (llm : LLM) (i : Nat) (entry : Entry) :
    recordOf llm i entry = fallbackRecord entry ∨
    ∃ analysis urgency impact category sentiment,
      llm i (bulkAnalysisPrompt entry.feedback_text) = .ok analysis ∧
      analysis.getProp "urgency" = .ok urgency ∧
      analysis.getProp "impact" = .ok impact ∧
      analysis.getProp "category" = .ok category ∧
      analysis.getProp "sentiment" = .ok sentiment ∧
      recordOf llm i entry =
        { customer_name := orDefault entry.customer_name ""
          customer_email := orDefault entry.customer_email ""
          feedback_text := entry.feedback_text
          source := orDefault entry.source "other"
          urgency := urgency
          impact := impact
          category := category
          sentiment := sentiment } := by
  cases h : llm i (bulkAnalysisPrompt entry.feedback_text) with
  | error e => exact Or.inl (recordOf_of_throw llm i entry e h)
  | ok v =>
    cases v with
    | undefined => left; simp [recordOf, classifyAttempt, h, bind, Except.bind, JSVal.getProp]
    | null => left; simp [recordOf, classifyAttempt, h, bind, Except.bind, JSVal.getProp]
    | bool b =>
      right
      exact ⟨_, _, _, _, _, rfl, rfl, rfl, rfl, rfl, by
        simp [recordOf, classifyAttempt, h, bind, Except.bind, JSVal.getProp, pure, Except.pure]⟩
    | num n =>
      right
      exact ⟨_, _, _, _, _, rfl, rfl, rfl, rfl, rfl, by
        simp [recordOf, classifyAttempt, h, bind, Except.bind, JSVal.getProp, pure, Except.pure]⟩
    | str s =>
      right
      exact ⟨_, _, _, _, _, rfl, rfl, rfl, rfl, rfl, by
        simp [recordOf, classifyAttempt, h, bind, Except.bind, JSVal.getProp, pure, Except.pure]⟩
    | arr xs =>
      right
      exact ⟨_, _, _, _, _, rfl, rfl, rfl, rfl, rfl, by
        simp [recordOf, classifyAttempt, h, bind, Except.bind, JSVal.getProp, pure, Except.pure]⟩
    | obj props =>
      right
      exact ⟨_, _, _, _, _, rfl, rfl, rfl, rfl, rfl, by
        simp [recordOf, classifyAttempt, h, bind, Except.bind, JSVal.getProp, pure, Except.pure]⟩

theorem recordOf_urgency_level (llm : LLM) (feedbackEntries : List Entry)
    (hllm : ∀ i entry analysis urgency, feedbackEntries[i]? = some entry →
      llm i (bulkAnalysisPrompt entry.feedback_text) = .ok analysis →
      analysis.getProp "urgency" = .ok urgency → IsLevel urgency) :
    ∀ f ∈ mapIdx (recordOf llm) 0 feedbackEntries, IsLevel f.urgency := by
  intro f hf
  obtain ⟨i, entry, hi, rfl⟩ := mem_mapIdx _ _ _ hf
  rcases recordOf_derived llm i entry with h | ⟨a, u, im, c, se, ha, hu, _, _, _, hrec⟩
  · rw [h]; exact Or.inr (Or.inl rfl)
  · rw [hrec]; exact hllm i entry a u hi ha hu

/-! ## Batch classification and grouping -/

/-- C1, as the claim states it, fails: a classifier response that carries no `urgency`
(one the response schema admits) leaves its record in none of the three buckets, so the
buckets hold 0 + 0 + 0 records while `all` holds 1 and `total` is 1. -/
theorem processFile_buckets_can_miss_a_record :
    matchesResponseSchema sentimentOnly = true ∧
    (processFile (bulkEnvOf [praiseEntry] sentimentOnlyLLM) selectedState).results.map
      (fun r => (r.grouped.high.length, r.grouped.medium.length, r.grouped.low.length,
        r.all.length, r.total)) = some (0, 0, 0, 1, 1) := by
  constructor
  · decide
  · rfl

/-- C1 (amended): when `processFile` classifies N extracted entries, whatever the
classifier does, `all` has N records and `total` is N, and the three buckets together hold
at most N records; they hold exactly N when every classifier call that returns a value
returns one whose `urgency` is "high", "medium" or "low". -/
theorem processFile_bucket_sizes (env : BulkEnv) (st : BulkState) (feedbackEntries : List Entry)
    (h : ReachesClassification env st feedbackEntries) :
    ∃ r, (processFile env st).results = some r ∧
      r.all.length = feedbackEntries.length ∧
      r.total = feedbackEntries.length ∧
      r.grouped.high.length + r.grouped.medium.length + r.grouped.low.length
        ≤ feedbackEntries.length ∧
      ((∀ i entry analysis urgency, feedbackEntries[i]? = some entry →
          env.InvokeLLM i (bulkAnalysisPrompt entry.feedback_text) = .ok analysis →
          analysis.getProp "urgency" = .ok urgency → IsLevel urgency) →
        r.grouped.high.length + r.grouped.medium.length + r.grouped.low.length
          = feedbackEntries.length) := by
  refine ⟨mkResults (mapIdx (recordOf env.InvokeLLM) 0 feedbackEntries), ?_, ?_, ?_, ?_, ?_⟩
  · rw [processFile_of_reaches env st feedbackEntries h]
  · exact mapIdx_length _ _ _
  · exact mapIdx_length _ _ _
  · have := (bucket_sizes (mapIdx (recordOf env.InvokeLLM) 0 feedbackEntries)).1
    rw [mapIdx_length] at this
    exact this
  · intro hllm
    have := (bucket_sizes (mapIdx (recordOf env.InvokeLLM) 0 feedbackEntries)).2
      (recordOf_urgency_level env.InvokeLLM feedbackEntries hllm)
    rw [mapIdx_length] at this
    exact this

/-- Witness of C1 (amended): three entries, the second classifier call throwing. -/
theorem processFile_bucket_sizes_witness :
    ReachesClassification (bulkEnvOf threeEntries secondFails) selectedState threeEntries ∧
    ∃ r, (processFile (bulkEnvOf threeEntries secondFails) selectedState).results = some r ∧
      r.all.length = threeEntries.length ∧
      r.total = threeEntries.length ∧
      r.grouped.high.length + r.grouped.medium.length + r.grouped.low.length
        ≤ threeEntries.length ∧
      ((∀ i entry analysis urgency, threeEntries[i]? = some entry →
          (bulkEnvOf threeEntries secondFails).InvokeLLM i
            (bulkAnalysisPrompt entry.feedback_text) = .ok analysis →
          analysis.getProp "urgency" = .ok urgency → IsLevel urgency) →
        r.grouped.high.length + r.grouped.medium.length + r.grouped.low.length
          = threeEntries.length) :=
  ⟨reaches_bulkEnvOf threeEntries secondFails (by simp [threeEntries]),
    processFile_bucket_sizes (bulkEnvOf threeEntries secondFails) selectedState threeEntries
      (reaches_bulkEnvOf threeEntries secondFails (by simp [threeEntries]))⟩

/-- C2: in the results of `processFile`, each urgency bucket is exactly the filter of `all`
by its own name, the filter test holding exactly for the records whose urgency is that
name; so a record is in a bucket iff it is in `all` with that urgency, and no record is in
two different buckets. -/
theorem processFile_buckets_exact (env : BulkEnv) (st : BulkState)
    (feedbackEntries : List Entry) (h : ReachesClassification env st feedbackEntries) :
    ∃ r, (processFile env st).results = some r ∧
      ∀ name bucket,
        (name, bucket) ∈
          [("high", r.grouped.high), ("medium", r.grouped.medium), ("low", r.grouped.low)] →
        bucket = r.all.filter (fun f => f.urgency.strictEqStr name) ∧
        (∀ f : FeedbackData, f.urgency.strictEqStr name = true ↔ f.urgency = .str name) ∧
        (∀ f, f ∈ bucket ↔ f ∈ r.all ∧ f.urgency = .str name) ∧
        (∀ name2 bucket2,
          (name2, bucket2) ∈
            [("high", r.grouped.high), ("medium", r.grouped.medium), ("low", r.grouped.low)] →
          name2 ≠ name → ∀ f, ¬ (f ∈ bucket ∧ f ∈ bucket2)) := by
  refine ⟨mkResults (mapIdx (recordOf env.InvokeLLM) 0 feedbackEntries), ?_, ?_⟩
  · rw [processFile_of_reaches env st feedbackEntries h]
  · intro name bucket hmem
    have hb : bucket = (mapIdx (recordOf env.InvokeLLM) 0 feedbackEntries).filter
        (fun f => f.urgency.strictEqStr name) := by
      simp only [List.mem_cons, Prod.mk.injEq, List.mem_singleton, List.not_mem_nil,
        or_false] at hmem
      rcases hmem with ⟨rfl, rfl⟩ | ⟨rfl, rfl⟩ | ⟨rfl, rfl⟩ <;> rfl
    have hmemb : ∀ f, f ∈ bucket ↔
        f ∈ mapIdx (recordOf env.InvokeLLM) 0 feedbackEntries ∧ f.urgency = .str name := by
      intro f
      rw [hb, List.mem_filter, strictEqStr_iff]
    refine ⟨hb, fun f => strictEqStr_iff _ _, hmemb, ?_⟩
    intro name2 bucket2 hmem2 hne f hf
    have hb2 : bucket2 = (mapIdx (recordOf env.InvokeLLM) 0 feedbackEntries).filter
        (fun f => f.urgency.strictEqStr name2) := by
      simp only [List.mem_cons, Prod.mk.injEq, List.mem_singleton, List.not_mem_nil,
        or_false] at hmem2
      rcases hmem2 with ⟨rfl, rfl⟩ | ⟨rfl, rfl⟩ | ⟨rfl, rfl⟩ <;> rfl
    have h1 := ((hmemb f).mp hf.1).2
    have h2 : f.urgency = .str name2 := by
      have := hf.2
      rw [hb2, List.mem_filter, strictEqStr_iff] at this
      exact this.2
    rw [h1] at h2
    exact hne (JSVal.str.inj h2).symm

/-- Witness of C2: three entries, the second classifier call throwing. -/
theorem processFile_buckets_exact_witness :
    ReachesClassification (bulkEnvOf threeEntries secondFails) selectedState threeEntries ∧
    ∃ r, (processFile (bulkEnvOf threeEntries secondFails) selectedState).results = some r ∧
      ∀ name bucket,
        (name, bucket) ∈
          [("high", r.grouped.high), ("medium", r.grouped.medium), ("low", r.grouped.low)] →
        bucket = r.all.filter (fun f => f.urgency.strictEqStr name) ∧
        (∀ f : FeedbackData, f.urgency.strictEqStr name = true ↔ f.urgency = .str name) ∧
        (∀ f, f ∈ bucket ↔ f ∈ r.all ∧ f.urgency = .str name) ∧
        (∀ name2 bucket2,
          (name2, bucket2) ∈
            [("high", r.grouped.high), ("medium", r.grouped.medium), ("low", r.grouped.low)] →
          name2 ≠ name → ∀ f, ¬ (f ∈ bucket ∧ f ∈ bucket2)) :=
  ⟨reaches_bulkEnvOf threeEntries secondFails (by simp [threeEntries]),
    processFile_buckets_exact (bulkEnvOf threeEntries secondFails) selectedState threeEntries
      (reaches_bulkEnvOf threeEntries secondFails (by simp [threeEntries]))⟩

/-- C3: in the results of `processFile`, the i-th record of `all` is the record of the i-th
entry, every bucket is a subsequence of `all`, and a record of `all` at position i with the
urgency of a bucket stands in that bucket at the position given by the number of earlier
records of the same bucket; hence for i < j landing in the same bucket the record for i
stands before the record for j. -/
theorem processFile_buckets_keep_order (env : BulkEnv) (st : BulkState)
    (feedbackEntries : List Entry) (h : ReachesClassification env st feedbackEntries) :
    ∃ r, (processFile env st).results = some r ∧
      (∀ i entry, feedbackEntries[i]? = some entry →
        r.all[i]? = some (recordOf env.InvokeLLM i entry)) ∧
      ∀ name bucket,
        (name, bucket) ∈
          [("high", r.grouped.high), ("medium", r.grouped.medium), ("low", r.grouped.low)] →
        bucket.Sublist r.all ∧
        ∀ i j fi fj, i < j → r.all[i]? = some fi → r.all[j]? = some fj →
          fi.urgency = .str name → fj.urgency = .str name →
          ∃ pi pj, pi < pj ∧ bucket[pi]? = some fi ∧ bucket[pj]? = some fj ∧
            pi = ((r.all.take i).filter (fun f => f.urgency.strictEqStr name)).length ∧
            pj = ((r.all.take j).filter (fun f => f.urgency.strictEqStr name)).length := by
  refine ⟨mkResults (mapIdx (recordOf env.InvokeLLM) 0 feedbackEntries), ?_, ?_, ?_⟩
  · rw [processFile_of_reaches env st feedbackEntries h]
  · intro i entry hi
    show (mapIdx (recordOf env.InvokeLLM) 0 feedbackEntries)[i]? = _
    rw [mapIdx_getElem?, hi]
    simp
  · intro name bucket hmem
    have hb : bucket = (mapIdx (recordOf env.InvokeLLM) 0 feedbackEntries).filter
        (fun f => f.urgency.strictEqStr name) := by
      simp only [List.mem_cons, Prod.mk.injEq, List.mem_singleton, List.not_mem_nil,
        or_false] at hmem
      rcases hmem with ⟨rfl, rfl⟩ | ⟨rfl, rfl⟩ | ⟨rfl, rfl⟩ <;> rfl
    subst hb
    refine ⟨List.filter_sublist _, ?_⟩
    intro i j fi fj hij hi hj hui huj
    have hpi : fi.urgency.strictEqStr name = true := (strictEqStr_iff _ _).mpr hui
    have hpj : fj.urgency.strictEqStr name = true := (strictEqStr_iff _ _).mpr huj
    exact ⟨_, _,
      filter_take_length_lt (fun f : FeedbackData => f.urgency.strictEqStr name) _ i j fi hij
        hi hpi,
      filter_getElem?_of_getElem? (fun f : FeedbackData => f.urgency.strictEqStr name) _ i fi
        hi hpi,
      filter_getElem?_of_getElem? (fun f : FeedbackData => f.urgency.strictEqStr name) _ j fj
        hj hpj,
      rfl, rfl⟩

/-- Witness of C3: three entries, the first and the third classified "high" and the second
falling back to "medium". The bucket `high` holds the records of positions 0 and 2, the
record of position 0 standing before the record of position 2. -/
theorem processFile_buckets_keep_order_witness :
    ReachesClassification (bulkEnvOf threeEntries highUnlessSecond) selectedState threeEntries ∧
    (processFile (bulkEnvOf threeEntries highUnlessSecond) selectedState).results.map
      (fun r => (r.all.map (fun f => f.feedback_text),
        r.grouped.high.map (fun f => f.feedback_text),
        r.grouped.medium.map (fun f => f.feedback_text),
        r.grouped.low.map (fun f => f.feedback_text))) =
      some (["App crashes on login", "Export to CSV times out", "Love the new dashboard"],
        ["App crashes on login", "Love the new dashboard"], ["Export to CSV times out"], []) ∧
    ∃ (r : Results) (fi fj : FeedbackData) (pi pj : Nat),
      (processFile (bulkEnvOf threeEntries highUnlessSecond) selectedState).results = some r ∧
      r.all[0]? = some fi ∧ r.all[2]? = some fj ∧
      fi.feedback_text = "App crashes on login" ∧
      fj.feedback_text = "Love the new dashboard" ∧
      fi.urgency = .str "high" ∧ fj.urgency = .str "high" ∧
      pi < pj ∧ r.grouped.high[pi]? = some fi ∧ r.grouped.high[pj]? = some fj ∧
      r.grouped.high.Sublist r.all := by
  have hreach : ReachesClassification (bulkEnvOf threeEntries highUnlessSecond) selectedState
      threeEntries := reaches_bulkEnvOf threeEntries highUnlessSecond (by simp [threeEntries])
  refine ⟨hreach, by decide, ?_⟩
  obtain ⟨r, hr, hall, hbuckets⟩ :=
    processFile_buckets_keep_order (bulkEnvOf threeEntries highUnlessSecond) selectedState
      threeEntries hreach
  have h0 := hall 0 crashEntry rfl
  have h2 := hall 2 praiseEntry rfl
  obtain ⟨hsub, horder⟩ := hbuckets "high" r.grouped.high (by simp)
  obtain ⟨pi, pj, hlt, hpi, hpj, _, _⟩ :=
    horder 0 2 _ _ (by decide) h0 h2 rfl rfl
  exact ⟨r, _, _, pi, pj, hr, h0, h2, rfl, rfl, rfl, rfl, hlt, hpi, hpj, hsub⟩

/-- C4: when the classifier call for an entry throws, the per-entry callback does not throw
and resolves to the record of the `catch` branch, whose urgency is "medium", impact
"medium", category "other" and sentiment "neutral". -/
theorem classifyEntry_fallback_on_throw (llm : LLM) (i : Nat) (entry : Entry) (err : String)
    (h : llm i (bulkAnalysisPrompt entry.feedback_text) = .error err) :
    ∃ record, classifyEntry llm i entry = .ok record ∧
      record.urgency = .str "medium" ∧
      record.impact = .str "medium" ∧
      record.category = .str "other" ∧
      record.sentiment = .str "neutral" := by
  refine ⟨fallbackRecord entry, ?_, rfl, rfl, rfl, rfl⟩
  rw [classifyEntry_eq, recordOf_of_throw llm i entry err h]

/-- Witness of C4: the second call of `secondFails` throws. -/
theorem classifyEntry_fallback_on_throw_witness :
    secondFails 1 (bulkAnalysisPrompt exportEntry.feedback_text) = .error "Network Error" ∧
    ∃ record, classifyEntry secondFails 1 exportEntry = .ok record ∧
      record.urgency = .str "medium" ∧
      record.impact = .str "medium" ∧
      record.category = .str "other" ∧
      record.sentiment = .str "neutral" :=
  ⟨rfl, classifyEntry_fallback_on_throw secondFails 1 exportEntry "Network Error" rfl⟩

/-- C5: for every list of entries and every classifier, wherever it throws, the batch
resolves (it does not reject) to one record per entry, in input order: the i-th record is
what the per-entry callback resolves to on the i-th entry, it carries that entry's
`feedback_text`, and it is the fallback record when the i-th classifier call throws. In
`processFile` these records become `results.all` and no error is set. -/
theorem classifyBatch_one_record_per_entry (llm : LLM) (feedbackEntries : List Entry) :
    ∃ records, classifyBatch llm feedbackEntries = .ok records ∧
      records.length = feedbackEntries.length ∧
      (∀ i entry, feedbackEntries[i]? = some entry →
        ∃ record, records[i]? = some record ∧
          classifyEntry llm i entry = .ok record ∧
          record.feedback_text = entry.feedback_text ∧
          (∀ err, llm i (bulkAnalysisPrompt entry.feedback_text) = .error err →
            record = fallbackRecord entry)) ∧
      (∀ env st, env.InvokeLLM = llm → ReachesClassification env st feedbackEntries →
        (processFile env st).error = none ∧
        (processFile env st).results.map (fun r => r.all) = some records) := by
  refine ⟨mapIdx (recordOf llm) 0 feedbackEntries, classifyBatch_eq llm feedbackEntries,
    mapIdx_length _ _ _, ?_, ?_⟩
  · intro i entry hi
    refine ⟨recordOf llm i entry, ?_, classifyEntry_eq llm i entry,
      (recordOf_inputs llm i entry).2.2.1, fun err herr => recordOf_of_throw llm i entry err herr⟩
    rw [mapIdx_getElem?, hi]
    simp
  · intro env st henv hreach
    subst henv
    rw [processFile_of_reaches env st feedbackEntries hreach]
    exact ⟨rfl, rfl⟩

/-- Witness of C5: three entries with the second classifier call throwing give three
records, the second one the fallback record. -/
theorem classifyBatch_one_record_per_entry_witness :
    classifyBatch secondFails threeEntries =
      .ok [recordOf secondFails 0 crashEntry, fallbackRecord exportEntry,
        recordOf secondFails 2 praiseEntry] ∧
    ∃ records, classifyBatch secondFails threeEntries = .ok records ∧
      records.length = threeEntries.length ∧
      (∀ i entry, threeEntries[i]? = some entry →
        ∃ record, records[i]? = some record ∧
          classifyEntry secondFails i entry = .ok record ∧
          record.feedback_text = entry.feedback_text ∧
          (∀ err, secondFails i (bulkAnalysisPrompt entry.feedback_text) = .error err →
            record = fallbackRecord entry)) ∧
      (∀ env st, env.InvokeLLM = secondFails → ReachesClassification env st threeEntries →
        (processFile env st).error = none ∧
        (processFile env st).results.map (fun r => r.all) = some records) :=
  ⟨rfl, classifyBatch_one_record_per_entry secondFails threeEntries⟩

/-! ## Completeness of a classification -/

theorem admitsProp_level (v : JSVal) (h : admitsProp ["high", "medium", "low"] v = true) :
    v = .undefined ∨ IsLevel v := by
  cases v <;> simp [admitsProp, IsLevel] at h ⊢
  exact h

theorem admitsProp_category (v : JSVal)
    (h : admitsProp ["bug", "feature_request", "ux_issue", "pricing", "other"] v = true) :
    v = .undefined ∨ IsCategory v := by
  cases v <;> simp [admitsProp, IsCategory] at h ⊢
  exact h

theorem admitsProp_sentiment (v : JSVal)
    (h : admitsProp ["positive", "neutral", "negative"] v = true) :
    v = .undefined ∨ IsSentiment v := by
  cases v <;> simp [admitsProp, IsSentiment] at h ⊢
  exact h

theorem fallbackRecord_fullyClassified (entry : Entry) :
    FullyClassified (fallbackRecord entry) :=
  ⟨Or.inr (Or.inl rfl), Or.inr (Or.inl rfl),
    Or.inr (Or.inr (Or.inr (Or.inr rfl))), Or.inr (Or.inl rfl)⟩

theorem schema_props (analysis urgency impact category sentiment : JSVal)
    (hs : matchesResponseSchema analysis = true)
    (hu : analysis.getProp "urgency" = .ok urgency)
    (hi : analysis.getProp "impact" = .ok impact)
    (hc : analysis.getProp "category" = .ok category)
    (hse : analysis.getProp "sentiment" = .ok sentiment) :
    (urgency = .undefined ∨ IsLevel urgency) ∧ (impact = .undefined ∨ IsLevel impact) ∧
    (category = .undefined ∨ IsCategory category) ∧
    (sentiment = .undefined ∨ IsSentiment sentiment) := by
  cases analysis with
  | obj props =>
    simp only [JSVal.getProp, Except.ok.injEq] at hu hi hc hse
    simp only [matchesResponseSchema, Bool.and_eq_true] at hs
    subst hu hi hc hse
    exact ⟨admitsProp_level _ hs.1.1.1, admitsProp_level _ hs.1.1.2,
      admitsProp_category _ hs.1.2, admitsProp_sentiment _ hs.2⟩
  | _ => simp [matchesResponseSchema] at hs

theorem handleSubmit_of_analysis (env : SubmitEnv) (st : SubmitState) (analysis : JSVal)
    (hllm : env.InvokeLLM 0 (submitAnalysisPrompt st.formData.feedback_text) = .ok analysis)
    (hu : analysis ≠ .undefined) (hn : analysis ≠ .null) :
    ∃ record,
      (handleSubmit env st).createCalls = st.createCalls ++ [record] ∧
      (record.customer_name = st.formData.customer_name ∧
        record.customer_email = st.formData.customer_email ∧
        record.feedback_text = st.formData.feedback_text ∧
        record.source = st.formData.source) ∧
      (analysis.getProp "urgency" = .ok record.urgency ∧
        analysis.getProp "impact" = .ok record.impact ∧
        analysis.getProp "category" = .ok record.category ∧
        analysis.getProp "sentiment" = .ok record.sentiment) ∧
      (env.FeedbackCreate record = .ok () →
        (handleSubmit env st).persisted = st.persisted ++ [record] ∧
        (handleSubmit env st).showSuccess = true) := by
  have key : ∀ u im c se,
      analysis.getProp "urgency" = .ok u → analysis.getProp "impact" = .ok im →
      analysis.getProp "category" = .ok c → analysis.getProp "sentiment" = .ok se →
      submitRecord st.formData analysis =
        .ok { customer_name := st.formData.customer_name
              customer_email := st.formData.customer_email
              feedback_text := st.formData.feedback_text
              source := st.formData.source
              urgency := u, impact := im, category := c, sentiment := se } := by
    intro u im c se h1 h2 h3 h4
    simp [submitRecord, h1, h2, h3, h4, bind, Except.bind, pure, Except.pure]
  have tot : ∃ u im c se,
      analysis.getProp "urgency" = .ok u ∧ analysis.getProp "impact" = .ok im ∧
      analysis.getProp "category" = .ok c ∧ analysis.getProp "sentiment" = .ok se := by
    cases analysis with
    | undefined => exact absurd rfl hu
    | null => exact absurd rfl hn
    | bool b => exact ⟨_, _, _, _, rfl, rfl, rfl, rfl⟩
    | num n => exact ⟨_, _, _, _, rfl, rfl, rfl, rfl⟩
    | str s => exact ⟨_, _, _, _, rfl, rfl, rfl, rfl⟩
    | arr xs => exact ⟨_, _, _, _, rfl, rfl, rfl, rfl⟩
    | obj props => exact ⟨_, _, _, _, rfl, rfl, rfl, rfl⟩
  obtain ⟨u, im, c, se, h1, h2, h3, h4⟩ := tot
  have hrec := key u im c se h1 h2 h3 h4
  refine ⟨{ customer_name := st.formData.customer_name
            customer_email := st.formData.customer_email
            feedback_text := st.formData.feedback_text
            source := st.formData.source
            urgency := u, impact := im, category := c, sentiment := se },
    ?_, ⟨rfl, rfl, rfl, rfl⟩, ⟨h1, h2, h3, h4⟩, ?_⟩
  · simp only [handleSubmit, hllm, hrec]
    cases env.FeedbackCreate _ <;> rfl
  · intro hc
    simp [handleSubmit, hllm, hrec, hc]

/-- C6, as the claim states it, fails: the response schema lists no required property, and
a response with `sentiment` only (which the schema admits) yields a record whose urgency,
impact and category are unset, in `processFile` and in `handleSubmit` alike. -/
theorem classification_can_be_partial :
    matchesResponseSchema sentimentOnly = true ∧
    classifyEntry sentimentOnlyLLM 0 praiseEntry =
      .ok { customer_name := ""
            customer_email := ""
            feedback_text := "Love the new dashboard"
            source := "other"
            urgency := .undefined
            impact := .undefined
            category := .undefined
            sentiment := .str "positive" } ∧
    (handleSubmit (submitEnvOf (.ok sentimentOnly)) (freshSubmitState crashForm)).persisted =
      [{ customer_name := "Ana"
         customer_email := "ana@example.com"
         feedback_text := "App crashes on login"
         source := "email"
         urgency := .undefined
         impact := .undefined
         category := .undefined
         sentiment := .str "positive" }] ∧
    ¬ IsLevel .undefined ∧ ¬ IsCategory .undefined := by
  refine ⟨by decide, rfl, rfl, ?_, ?_⟩
  · simp [IsLevel]
  · simp [IsCategory]

/-- C6 (amended): the per-entry callback always resolves to a record. When the classifier
call throws (or returns `null` or `undefined`) the record carries the complete fallback
classification, each field a member of its enum. When the call returns any other value,
each derived field of the record is the value of the response's property of that name, in
`processFile` and in the record `handleSubmit` hands to `Feedback.create`; if the response
matches the response schema, each derived field is unset or a member of its enum. -/
theorem classification_complete_or_as_returned (llm : LLM) (i : Nat) (entry : Entry) :
    (∃ record, classifyEntry llm i entry = .ok record ∧
      (∀ err, llm i (bulkAnalysisPrompt entry.feedback_text) = .error err →
        record = fallbackRecord entry ∧ FullyClassified record) ∧
      (∀ analysis, llm i (bulkAnalysisPrompt entry.feedback_text) = .ok analysis →
        ((analysis = .undefined ∨ analysis = .null) ∧
          record = fallbackRecord entry ∧ FullyClassified record) ∨
        (analysis.getProp "urgency" = .ok record.urgency ∧
          analysis.getProp "impact" = .ok record.impact ∧
          analysis.getProp "category" = .ok record.category ∧
          analysis.getProp "sentiment" = .ok record.sentiment ∧
          (matchesResponseSchema analysis = true →
            (record.urgency = .undefined ∨ IsLevel record.urgency) ∧
            (record.impact = .undefined ∨ IsLevel record.impact) ∧
            (record.category = .undefined ∨ IsCategory record.category) ∧
            (record.sentiment = .undefined ∨ IsSentiment record.sentiment))))) ∧
    (∀ (env : SubmitEnv) (st : SubmitState) (analysis : JSVal),
      env.InvokeLLM 0 (submitAnalysisPrompt st.formData.feedback_text) = .ok analysis →
      analysis ≠ .undefined → analysis ≠ .null →
      ∃ record, (handleSubmit env st).createCalls = st.createCalls ++ [record] ∧
        analysis.getProp "urgency" = .ok record.urgency ∧
        analysis.getProp "impact" = .ok record.impact ∧
        analysis.getProp "category" = .ok record.category ∧
        analysis.getProp "sentiment" = .ok record.sentiment ∧
        (matchesResponseSchema analysis = true →
          (record.urgency = .undefined ∨ IsLevel record.urgency) ∧
          (record.impact = .undefined ∨ IsLevel record.impact) ∧
          (record.category = .undefined ∨ IsCategory record.category) ∧
          (record.sentiment = .undefined ∨ IsSentiment record.sentiment))) := by
  constructor
  · refine ⟨recordOf llm i entry, classifyEntry_eq llm i entry, ?_, ?_⟩
    · intro err herr
      rw [recordOf_of_throw llm i entry err herr]
      exact ⟨rfl, fallbackRecord_fullyClassified entry⟩
    · intro analysis hok
      rcases recordOf_derived llm i entry with h | ⟨a, u, im, c, se, ha, hu, hi, hc, hse, hrec⟩
      · cases analysis with
        | undefined =>
          exact Or.inl ⟨Or.inl rfl, h, h ▸ fallbackRecord_fullyClassified entry⟩
        | null =>
          exact Or.inl ⟨Or.inr rfl, h, h ▸ fallbackRecord_fullyClassified entry⟩
        | bool b =>
          right
          simp [recordOf, classifyAttempt, hok, bind, Except.bind, JSVal.getProp, pure,
            Except.pure, matchesResponseSchema]
        | num n =>
          right
          simp [recordOf, classifyAttempt, hok, bind, Except.bind, JSVal.getProp, pure,
            Except.pure, matchesResponseSchema]
        | str s =>
          right
          simp [recordOf, classifyAttempt, hok, bind, Except.bind, JSVal.getProp, pure,
            Except.pure, matchesResponseSchema]
        | arr xs =>
          right
          simp [recordOf, classifyAttempt, hok, bind, Except.bind, JSVal.getProp, pure,
            Except.pure, matchesResponseSchema]
        | obj props =>
          right
          have hrec : recordOf llm i entry =
              { customer_name := orDefault entry.customer_name ""
                customer_email := orDefault entry.customer_email ""
                feedback_text := entry.feedback_text
                source := orDefault entry.source "other"
                urgency := JSVal.lookup "urgency" props
                impact := JSVal.lookup "impact" props
                category := JSVal.lookup "category" props
                sentiment := JSVal.lookup "sentiment" props } := by
            simp [recordOf, classifyAttempt, hok, bind, Except.bind, JSVal.getProp, pure,
              Except.pure]
          rw [hrec]
          refine ⟨rfl, rfl, rfl, rfl, fun hs => ?_⟩
          exact schema_props (.obj props) _ _ _ _ hs rfl rfl rfl rfl
      · rw [hok] at ha
        cases ha
        rw [hrec]
        exact Or.inr ⟨hu, hi, hc, hse, fun hs => schema_props analysis u im c se hs hu hi hc hse⟩
  · intro env st analysis hllm hu hn
    obtain ⟨record, hcalls, _, ⟨h1, h2, h3, h4⟩, _⟩ :=
      handleSubmit_of_analysis env st analysis hllm hu hn
    exact ⟨record, hcalls, h1, h2, h3, h4,
      fun hs => schema_props analysis _ _ _ _ hs h1 h2 h3 h4⟩

/-! ## Input fields of a record -/

theorem orDefault_empty (v : Option String) : orDefault v "" = v.getD "" := by
  cases v with
  | none => rfl
  | some s =>
    by_cases h : s = ""
    · simp [orDefault, h]
    · simp [orDefault, h]

/-- C7, as the claim states it, fails: an entry whose `source` is present and is the empty
string gets the source "other", on the success path and on the fallback path. -/
theorem empty_source_is_replaced :
    exportEntry.source = some "" ∧
    classifyEntry secondFails 0 exportEntry =
      .ok { customer_name := ""
            customer_email := "bo@example.com"
            feedback_text := "Export to CSV times out"
            source := "other"
            urgency := .str "high"
            impact := .str "high"
            category := .str "bug"
            sentiment := .str "negative" } ∧
    classifyEntry secondFails 1 exportEntry =
      .ok { customer_name := ""
            customer_email := "bo@example.com"
            feedback_text := "Export to CSV times out"
            source := "other"
            urgency := .str "medium"
            impact := .str "medium"
            category := .str "other"
            sentiment := .str "neutral" } :=
  ⟨rfl, rfl, rfl⟩

/-- C7 (amended): for every entry and every classifier outcome (success path and fallback
path alike), the record's `customer_name` and `customer_email` are the entry's values when
present and "" when absent, its `feedback_text` is the entry's, and its `source` is the
entry's value when present and not empty, "other" when absent or empty. -/
theorem classifyEntry_keeps_input_fields (llm : LLM) (i : Nat) (entry : Entry) :
    ∃ record, classifyEntry llm i entry = .ok record ∧
      record.customer_name = entry.customer_name.getD "" ∧
      record.customer_email = entry.customer_email.getD "" ∧
      record.feedback_text = entry.feedback_text ∧
      (∀ s, entry.source = some s → s ≠ "" → record.source = s) ∧
      (entry.source = none ∨ entry.source = some "" → record.source = "other") := by
  obtain ⟨h1, h2, h3, h4⟩ := recordOf_inputs llm i entry
  refine ⟨recordOf llm i entry, classifyEntry_eq llm i entry, ?_, ?_, h3, ?_, ?_⟩
  · rw [h1, orDefault_empty]
  · rw [h2, orDefault_empty]
  · intro s hs hne
    rw [h4, hs]
    simp [orDefault, hne]
  · intro hs
    rw [h4]
    rcases hs with hs | hs <;> simp [orDefault, hs]

/-- Witness of C6 (amended): the complete response `crashAnalysis`. -/
theorem classification_complete_or_as_returned_witness :
    classifyEntry secondFails 0 crashEntry =
      .ok { customer_name := "Ana"
            customer_email := ""
            feedback_text := "App crashes on login"
            source := "email"
            urgency := .str "high"
            impact := .str "high"
            category := .str "bug"
            sentiment := .str "negative" } ∧
    ∃ record, classifyEntry secondFails 0 crashEntry = .ok record ∧
      (∀ err, secondFails 0 (bulkAnalysisPrompt crashEntry.feedback_text) = .error err →
        record = fallbackRecord crashEntry ∧ FullyClassified record) ∧
      (∀ analysis, secondFails 0 (bulkAnalysisPrompt crashEntry.feedback_text) = .ok analysis →
        ((analysis = .undefined ∨ analysis = .null) ∧
          record = fallbackRecord crashEntry ∧ FullyClassified record) ∨
        (analysis.getProp "urgency" = .ok record.urgency ∧
          analysis.getProp "impact" = .ok record.impact ∧
          analysis.getProp "category" = .ok record.category ∧
          analysis.getProp "sentiment" = .ok record.sentiment ∧
          (matchesResponseSchema analysis = true →
            (record.urgency = .undefined ∨ IsLevel record.urgency) ∧
            (record.impact = .undefined ∨ IsLevel record.impact) ∧
            (record.category = .undefined ∨ IsCategory record.category) ∧
            (record.sentiment = .undefined ∨ IsSentiment record.sentiment)))) :=
  ⟨rfl, (classification_complete_or_as_returned secondFails 0 crashEntry).1⟩

/-- Witness of C7 (amended): an entry with a name and a source. -/
theorem classifyEntry_keeps_input_fields_witness :
    ∃ record, classifyEntry secondFails 0 crashEntry = .ok record ∧
      record.customer_name = crashEntry.customer_name.getD "" ∧
      record.customer_email = crashEntry.customer_email.getD "" ∧
      record.feedback_text = crashEntry.feedback_text ∧
      (∀ s, crashEntry.source = some s → s ≠ "" → record.source = s) ∧
      (crashEntry.source = none ∨ crashEntry.source = some "" → record.source = "other") :=
  classifyEntry_keeps_input_fields secondFails 0 crashEntry

/-! ## Single submission -/

theorem handleSubmit_of_throw (env : SubmitEnv) (st : SubmitState) (err : String)
    (hllm : env.InvokeLLM 0 (submitAnalysisPrompt st.formData.feedback_text) = .error err) :
    handleSubmit env st = { st with isProcessing := false } := by
  simp [handleSubmit, hllm]

/-- C8 fails on the code: when the classifier call of `handleSubmit` throws, the single
`catch` of the handler only logs; `Feedback.create` is never called, nothing is persisted
and no fallback classification is built, the form state being left as it was. -/
theorem handleSubmit_drops_submission_when_classifier_throws :
    handleSubmit (submitEnvOf (.error "Network Error")) (freshSubmitState crashForm) =
      { formData := crashForm
        isProcessing := false
        showSuccess := false
        createCalls := []
        persisted := [] } ∧
    ∀ (env : SubmitEnv) (st : SubmitState) (err : String),
      env.InvokeLLM 0 (submitAnalysisPrompt st.formData.feedback_text) = .error err →
      (handleSubmit env st).createCalls = st.createCalls ∧
      (handleSubmit env st).persisted = st.persisted ∧
      (handleSubmit env st).showSuccess = st.showSuccess := by
  refine ⟨rfl, ?_⟩
  intro env st err hllm
  rw [handleSubmit_of_throw env st err hllm]
  exact ⟨rfl, rfl, rfl⟩

/-- C9: for every form and every value the classifier returns (any object; any value on
which a property can be read), `handleSubmit` calls `Feedback.create` exactly once, with a
record whose four input fields are the form's values and whose urgency, impact, category
and sentiment are the response's properties of those names, unchanged; when that call
resolves, exactly this record is persisted and the success flag is set. -/
theorem handleSubmit_persists_classified_form (env : SubmitEnv) (st : SubmitState)
    (analysis : JSVal)
    (hllm : env.InvokeLLM 0 (submitAnalysisPrompt st.formData.feedback_text) = .ok analysis)
    (hu : analysis ≠ .undefined) (hn : analysis ≠ .null) :
    ∃ record,
      (handleSubmit env st).createCalls = st.createCalls ++ [record] ∧
      (record.customer_name = st.formData.customer_name ∧
        record.customer_email = st.formData.customer_email ∧
        record.feedback_text = st.formData.feedback_text ∧
        record.source = st.formData.source) ∧
      (analysis.getProp "urgency" = .ok record.urgency ∧
        analysis.getProp "impact" = .ok record.impact ∧
        analysis.getProp "category" = .ok record.category ∧
        analysis.getProp "sentiment" = .ok record.sentiment) ∧
      (∀ props, analysis = .obj props →
        record.urgency = JSVal.lookup "urgency" props ∧
        record.impact = JSVal.lookup "impact" props ∧
        record.category = JSVal.lookup "category" props ∧
        record.sentiment = JSVal.lookup "sentiment" props) ∧
      (env.FeedbackCreate record = .ok () →
        (handleSubmit env st).persisted = st.persisted ++ [record] ∧
        (handleSubmit env st).showSuccess = true) := by
  obtain ⟨record, hcalls, hin, ⟨h1, h2, h3, h4⟩, hper⟩ :=
    handleSubmit_of_analysis env st analysis hllm hu hn
  refine ⟨record, hcalls, hin, ⟨h1, h2, h3, h4⟩, ?_, hper⟩
  intro props hprops
  subst hprops
  simp only [JSVal.getProp, Except.ok.injEq] at h1 h2 h3 h4
  exact ⟨h1.symm, h2.symm, h3.symm, h4.symm⟩

/-- Witness of C9: the text "App crashes on login" with the classifier result
high / high / bug / negative is persisted with exactly those four values. -/
theorem handleSubmit_persists_classified_form_witness :
    (handleSubmit (submitEnvOf (.ok crashAnalysis)) (freshSubmitState crashForm)).persisted =
      [{ customer_name := "Ana"
         customer_email := "ana@example.com"
         feedback_text := "App crashes on login"
         source := "email"
         urgency := .str "high"
         impact := .str "high"
         category := .str "bug"
         sentiment := .str "negative" }] ∧
    ∃ record,
      (handleSubmit (submitEnvOf (.ok crashAnalysis)) (freshSubmitState crashForm)).createCalls
        = (freshSubmitState crashForm).createCalls ++ [record] ∧
      (record.customer_name = (freshSubmitState crashForm).formData.customer_name ∧
        record.customer_email = (freshSubmitState crashForm).formData.customer_email ∧
        record.feedback_text = (freshSubmitState crashForm).formData.feedback_text ∧
        record.source = (freshSubmitState crashForm).formData.source) ∧
      (crashAnalysis.getProp "urgency" = .ok record.urgency ∧
        crashAnalysis.getProp "impact" = .ok record.impact ∧
        crashAnalysis.getProp "category" = .ok record.category ∧
        crashAnalysis.getProp "sentiment" = .ok record.sentiment) ∧
      (∀ props, crashAnalysis = .obj props →
        record.urgency = JSVal.lookup "urgency" props ∧
        record.impact = JSVal.lookup "impact" props ∧
        record.category = JSVal.lookup "category" props ∧
        record.sentiment = JSVal.lookup "sentiment" props) ∧
      ((submitEnvOf (.ok crashAnalysis)).FeedbackCreate record = .ok () →
        (handleSubmit (submitEnvOf (.ok crashAnalysis)) (freshSubmitState crashForm)).persisted
          = (freshSubmitState crashForm).persisted ++ [record] ∧
        (handleSubmit (submitEnvOf (.ok crashAnalysis)) (freshSubmitState crashForm)).showSuccess
          = true) :=
  ⟨rfl,
    handleSubmit_persists_classified_form (submitEnvOf (.ok crashAnalysis))
      (freshSubmitState crashForm) crashAnalysis rfl (by simp [crashAnalysis])
      (by simp [crashAnalysis])⟩

/-! ## Report window -/

theorem inDateRange_iff (dateRange : DateRange) (f : FeedbackRecord) :
    inDateRange dateRange f = true ↔
      dateRange.start * msPerDay ≤ f.created_date ∧ f.created_date ≤ dateRange.end_ * msPerDay := by
  simp [inDateRange, dateOnlyTime]

theorem inDateRange_end_day (dateRange : DateRange) (f : FeedbackRecord)
    (hse : dateRange.start ≤ dateRange.end_)
    (hday : calendarDay f.created_date = dateRange.end_) :
    inDateRange dateRange f = true ↔ f.created_date = dateOnlyTime dateRange.end_ := by
  rw [inDateRange_iff]
  unfold calendarDay msPerDay at hday
  unfold dateOnlyTime msPerDay
  constructor
  · rintro ⟨_, h2⟩
    omega
  · intro h
    constructor
    · have : dateRange.start * 86400000 ≤ dateRange.end_ * 86400000 := by omega
      omega
    · omega

/-- C10 fails on the code: with the window 2024-01-14 .. 2024-01-20, a feedback created on
the end day 2024-01-20 at 10:30 UTC is left out by the filter of `generateReport`, since
its time value is compared with midnight of the end day; a record of the end day is kept
only when created at that midnight exactly. -/
theorem inDateRange_excludes_record_of_end_day :
    sampleWeek.start ≤ sampleWeek.end_ ∧
    calendarDay saturdayRecord.created_date = sampleWeek.end_ ∧
    inDateRange sampleWeek saturdayRecord = false ∧
    (feedbackInRange sampleWeek [saturdayRecord]).length = 0 ∧
    ∀ (dateRange : DateRange) (f : FeedbackRecord),
      dateRange.start ≤ dateRange.end_ → calendarDay f.created_date = dateRange.end_ →
      (inDateRange dateRange f = true ↔ f.created_date = dateOnlyTime dateRange.end_) := by
  refine ⟨by decide, by decide, by decide, by decide, ?_⟩
  intro dateRange f hse hday
  exact inDateRange_end_day dateRange f hse hday

theorem inDateRange_eq_false_iff (dateRange : DateRange) (f : FeedbackRecord) :
    inDateRange dateRange f = false ↔
      f.created_date < dateRange.start * msPerDay ∨ dateRange.end_ * msPerDay < f.created_date := by
  rw [← Bool.not_eq_true, inDateRange_iff]
  constructor
  · intro h
    by_cases h1 : dateRange.start * msPerDay ≤ f.created_date
    · right
      by_contra h2
      exact h ⟨h1, by omega⟩
    · left; omega
  · rintro (h | h) ⟨h1, h2⟩ <;> omega

theorem inDateRange_excludes_adjacent_utc_days (dateRange : DateRange) (f : FeedbackRecord)
    (h : calendarDay f.created_date = dateRange.start - 1 ∨
      calendarDay f.created_date = dateRange.end_ + 1) :
    inDateRange dateRange f = false := by
  rw [inDateRange_eq_false_iff]
  unfold calendarDay msPerDay at h
  unfold msPerDay
  rcases h with h | h
  · left; omega
  · right; omega

/-- C11 fails on the code: the filter of `generateReport` compares time values with
midnight UTC of the bounds, not dates. In the time zone UTC-05:00, a feedback created on
2024-01-13 at 23:00 local time (2024-01-14 at 04:00 UTC), one day before the start of the
window 2024-01-14 .. 2024-01-20, passes the filter. A record whose local creation day is
the day before the start is excluded in every zone at or east of UTC (offset >= 0), and a
record of the day after the end is excluded in every zone; in UTC both are excluded. -/
theorem inDateRange_keeps_record_of_previous_local_day :
    utcMinus5 lateEveningRecord.created_date = sampleWeek.start - 1 ∧
    inDateRange sampleWeek lateEveningRecord = true ∧
    (feedbackInRange sampleWeek [lateEveningRecord]).length = 1 ∧
    (∀ (dateRange : DateRange) (f : FeedbackRecord) (offset : Int), 0 ≤ offset →
      (f.created_date + offset) / msPerDay = dateRange.start - 1 →
      inDateRange dateRange f = false) ∧
    (∀ (dateRange : DateRange) (f : FeedbackRecord) (offset : Int), offset < msPerDay →
      (f.created_date + offset) / msPerDay = dateRange.end_ + 1 →
      inDateRange dateRange f = false) ∧
    (∀ (dateRange : DateRange) (f : FeedbackRecord),
      calendarDay f.created_date = dateRange.start - 1 ∨
        calendarDay f.created_date = dateRange.end_ + 1 →
      inDateRange dateRange f = false) := by
  refine ⟨by decide, by decide, by decide, ?_, ?_, ?_⟩
  · intro dateRange f offset hoff hday
    rw [inDateRange_eq_false_iff]
    unfold msPerDay at hday ⊢
    left; omega
  · intro dateRange f offset hoff hday
    rw [inDateRange_eq_false_iff]
    unfold msPerDay at hoff hday ⊢
    right; omega
  · intro dateRange f h
    exact inDateRange_excludes_adjacent_utc_days dateRange f h

/-! ## Report generation -/

theorem generateReport_of_list_throw (env : ReportEnv) (st : ReportState) (err : String)
    (hlist : env.FeedbackList = .error err) :
    generateReport env st = { st with isGenerating := false } := by
  simp [generateReport, hlist]

theorem generateReport_of_empty (env : ReportEnv) (st : ReportState)
    (allFeedback : List FeedbackRecord) (hlist : env.FeedbackList = .ok allFeedback)
    (hempty : feedbackInRange st.dateRange allFeedback = []) :
    generateReport env st =
      { st with generatedReport := some placeholderReport, isGenerating := false } := by
  simp [generateReport, hlist, hempty]

theorem generateReport_of_narrative_throw (env : ReportEnv) (st : ReportState)
    (allFeedback : List FeedbackRecord) (err : String)
    (hlist : env.FeedbackList = .ok allFeedback)
    (hne : feedbackInRange st.dateRange allFeedback ≠ [])
    (hllm : env.InvokeLLM (reportPrompt st.dateRange (feedbackInRange st.dateRange allFeedback))
      = .error err) :
    generateReport env st =
      { st with
        narrativeCalls := st.narrativeCalls ++
          [reportPrompt st.dateRange (feedbackInRange st.dateRange allFeedback)]
        isGenerating := false } := by
  have hlen : (feedbackInRange st.dateRange allFeedback).length ≠ 0 :=
    fun h0 => hne (List.length_eq_zero.mp h0)
  simp [generateReport, hlist, hlen, hllm]

/-- The argument of `Report.create` for a window, its filtered records and the text of the
narrative call. -/
theorem generateReport_of_narrative (env : ReportEnv) (st : ReportState)
    (allFeedback : List FeedbackRecord) (reportMarkdown : JSVal)
    (hlist : env.FeedbackList = .ok allFeedback)
    (hne : feedbackInRange st.dateRange allFeedback ≠ [])
    (hllm : env.InvokeLLM (reportPrompt st.dateRange (feedbackInRange st.dateRange allFeedback))
      = .ok reportMarkdown) :
    ∃ report : Report,
      report =
        { week_start_date := st.dateRange.start
          week_end_date := st.dateRange.end_
          report_markdown := reportMarkdown
          total_feedback_count := (reportStats (feedbackInRange st.dateRange allFeedback)).total
          high_urgency_count :=
            (reportStats (feedbackInRange st.dateRange allFeedback)).highUrgency
          sentiment_summary :=
            (reportStats (feedbackInRange st.dateRange allFeedback)).sentiment } ∧
      (generateReport env st).createCalls = st.createCalls ++ [report] ∧
      (generateReport env st).narrativeCalls = st.narrativeCalls ++
        [reportPrompt st.dateRange (feedbackInRange st.dateRange allFeedback)] ∧
      (generateReport env st).isGenerating = false ∧
      (generateReport env st).dateRange = st.dateRange ∧
      (generateReport env st).copied = st.copied ∧
      (∀ err, env.ReportCreate report = .error err →
        (generateReport env st).persisted = st.persisted ∧
        (generateReport env st).generatedReport = st.generatedReport) ∧
      (env.ReportCreate report = .ok () →
        (generateReport env st).persisted = st.persisted ++ [report] ∧
        (generateReport env st).generatedReport =
          some { markdown := reportMarkdown
                 stats := reportStats (feedbackInRange st.dateRange allFeedback) }) := by
  have hlen : (feedbackInRange st.dateRange allFeedback).length ≠ 0 :=
    fun h0 => hne (List.length_eq_zero.mp h0)
  refine ⟨_, rfl, ?_, ?_, ?_, ?_, ?_, ?_, ?_⟩
  · simp only [generateReport, hlist, hlen, hllm, if_false]
    cases env.ReportCreate _ <;> rfl
  · simp only [generateReport, hlist, hlen, hllm, if_false]
    cases env.ReportCreate _ <;> rfl
  · simp only [generateReport, hlist, hlen, hllm, if_false]
    cases env.ReportCreate _ <;> rfl
  · simp only [generateReport, hlist, hlen, hllm, if_false]
    cases env.ReportCreate _ <;> rfl
  · simp only [generateReport, hlist, hlen, hllm, if_false]
    cases env.ReportCreate _ <;> rfl
  · intro err hc
    simp [generateReport, hlist, hlen, hllm, hc]
  · intro hc
    simp [generateReport, hlist, hlen, hllm, hc]

/-- C12: when the filtered list is empty (no record falls in the window), `generateReport`
sets the fixed placeholder report, whose markdown is the "# No Feedback Available" text
and whose stats are total 0, highUrgency 0 and sentiment 0 / 0 / 0; it issues no narrative
call and no `Report.create` call, so no Report is persisted. -/
theorem generateReport_empty_window (env : ReportEnv) (st : ReportState)
    (allFeedback : List FeedbackRecord) (hlist : env.FeedbackList = .ok allFeedback)
    (hempty : feedbackInRange st.dateRange allFeedback = []) :
    (generateReport env st).generatedReport = some placeholderReport ∧
    placeholderReport.markdown =
      .str "# No Feedback Available\n\nNo feedback entries found for the selected date range." ∧
    placeholderReport.stats =
      { total := 0, highUrgency := 0,
        sentiment := { positive := 0, neutral := 0, negative := 0 } } ∧
    (generateReport env st).narrativeCalls = st.narrativeCalls ∧
    (generateReport env st).createCalls = st.createCalls ∧
    (generateReport env st).persisted = st.persisted := by
  rw [generateReport_of_empty env st allFeedback hlist hempty]
  exact ⟨rfl, rfl, rfl, rfl, rfl, rfl⟩

/-- Witness of C12: the only record lies on the day before the window. -/
theorem generateReport_empty_window_witness :
    feedbackInRange (freshReportState sampleWeek).dateRange [dayBeforeRecord] = [] ∧
    (generateReport (reportEnvOf [dayBeforeRecord] (.ok (.str "# Weekly")))
      (freshReportState sampleWeek)).generatedReport = some placeholderReport ∧
    placeholderReport.markdown =
      .str "# No Feedback Available\n\nNo feedback entries found for the selected date range." ∧
    placeholderReport.stats =
      { total := 0, highUrgency := 0,
        sentiment := { positive := 0, neutral := 0, negative := 0 } } ∧
    (generateReport (reportEnvOf [dayBeforeRecord] (.ok (.str "# Weekly")))
      (freshReportState sampleWeek)).narrativeCalls = (freshReportState sampleWeek).narrativeCalls ∧
    (generateReport (reportEnvOf [dayBeforeRecord] (.ok (.str "# Weekly")))
      (freshReportState sampleWeek)).createCalls = (freshReportState sampleWeek).createCalls ∧
    (generateReport (reportEnvOf [dayBeforeRecord] (.ok (.str "# Weekly")))
      (freshReportState sampleWeek)).persisted = (freshReportState sampleWeek).persisted :=
  ⟨rfl,
    generateReport_empty_window (reportEnvOf [dayBeforeRecord] (.ok (.str "# Weekly")))
      (freshReportState sampleWeek) [dayBeforeRecord] rfl rfl⟩

/-- C13 fails on the code: for the window 2024-01-14 .. 2024-01-20 and two records, one of
2024-01-16 and one of the end day 2024-01-20 at 10:30 UTC, the persisted Report carries
the requested bounds but `total_feedback_count` 1, while 2 records were created on a
calendar day of the window; with the end-day record alone no Report is persisted at all.
In general the count is the length of the filtered list. -/
theorem generateReport_total_misses_end_day :
    (generateReport (reportEnvOf [tuesdayRecord, saturdayRecord] (.ok (.str "# Weekly")))
        (freshReportState sampleWeek)).persisted.map
      (fun r => (r.week_start_date, r.week_end_date, r.total_feedback_count))
      = [(19736, 19742, 1)] ∧
    ([tuesdayRecord, saturdayRecord].filter
      (fun f => decide (sampleWeek.start ≤ calendarDay f.created_date ∧
        calendarDay f.created_date ≤ sampleWeek.end_))).length = 2 ∧
    (generateReport (reportEnvOf [saturdayRecord] (.ok (.str "# Weekly")))
        (freshReportState sampleWeek)).persisted.length = 0 ∧
    ∀ (env : ReportEnv) (st : ReportState) (allFeedback : List FeedbackRecord)
      (reportMarkdown : JSVal),
      env.FeedbackList = .ok allFeedback →
      feedbackInRange st.dateRange allFeedback ≠ [] →
      env.InvokeLLM (reportPrompt st.dateRange (feedbackInRange st.dateRange allFeedback))
        = .ok reportMarkdown →
      ∃ report, (generateReport env st).createCalls = st.createCalls ++ [report] ∧
        report.week_start_date = st.dateRange.start ∧
        report.week_end_date = st.dateRange.end_ ∧
        report.total_feedback_count = (feedbackInRange st.dateRange allFeedback).length := by
  refine ⟨by decide, by decide, by decide, ?_⟩
  intro env st allFeedback reportMarkdown hlist hne hllm
  obtain ⟨report, hrep, hcalls, _⟩ :=
    generateReport_of_narrative env st allFeedback reportMarkdown hlist hne hllm
  rw [hrep] at hcalls
  exact ⟨_, hcalls, rfl, rfl, rfl⟩

/-- C14: for every non-empty filtered list, the Report handed to `Report.create` (and
persisted when that call resolves) has `total_feedback_count` the number of filtered
records, `high_urgency_count` the number of filtered records with urgency "high", and
`sentiment_summary` the numbers of filtered records with sentiment "positive", "neutral"
and "negative"; the counts are taken from the records, whatever text the narrative call
returned. -/
theorem generateReport_summary_counts (env : ReportEnv) (st : ReportState)
    (allFeedback : List FeedbackRecord) (reportMarkdown : JSVal)
    (hlist : env.FeedbackList = .ok allFeedback)
    (hne : feedbackInRange st.dateRange allFeedback ≠ [])
    (hllm : env.InvokeLLM (reportPrompt st.dateRange (feedbackInRange st.dateRange allFeedback))
      = .ok reportMarkdown) :
    ∃ report, (generateReport env st).createCalls = st.createCalls ++ [report] ∧
      report.total_feedback_count = (feedbackInRange st.dateRange allFeedback).length ∧
      report.high_urgency_count =
        (feedbackInRange st.dateRange allFeedback).countP
          (fun f => f.urgency.strictEqStr "high") ∧
      report.sentiment_summary.positive =
        (feedbackInRange st.dateRange allFeedback).countP
          (fun f => f.sentiment.strictEqStr "positive") ∧
      report.sentiment_summary.neutral =
        (feedbackInRange st.dateRange allFeedback).countP
          (fun f => f.sentiment.strictEqStr "neutral") ∧
      report.sentiment_summary.negative =
        (feedbackInRange st.dateRange allFeedback).countP
          (fun f => f.sentiment.strictEqStr "negative") ∧
      (∀ (v : JSVal) (lit : String), v.strictEqStr lit = true ↔ v = .str lit) ∧
      (env.ReportCreate report = .ok () →
        (generateReport env st).persisted = st.persisted ++ [report]) := by
  obtain ⟨report, hrep, hcalls, _, _, _, _, _, hok⟩ :=
    generateReport_of_narrative env st allFeedback reportMarkdown hlist hne hllm
  refine ⟨report, hcalls, ?_, ?_, ?_, ?_, ?_, strictEqStr_iff, fun hc => (hok hc).1⟩ <;>
    rw [hrep] <;> simp [reportStats, List.countP_eq_length_filter]

/-- Witness of C14: 3 positive, 1 neutral and 1 negative records give
`total_feedback_count` 5 and `sentiment_summary` 3 / 1 / 1. -/
theorem generateReport_summary_counts_witness :
    (generateReport (reportEnvOf fiveRecords (.ok (.str "# Weekly")))
        (freshReportState sampleWeek)).persisted.map
      (fun r => (r.total_feedback_count, r.high_urgency_count, r.sentiment_summary))
      = [(5, 2, { positive := 3, neutral := 1, negative := 1 })] ∧
    ∃ report,
      (generateReport (reportEnvOf fiveRecords (.ok (.str "# Weekly")))
        (freshReportState sampleWeek)).createCalls
        = (freshReportState sampleWeek).createCalls ++ [report] ∧
      report.total_feedback_count =
        (feedbackInRange (freshReportState sampleWeek).dateRange fiveRecords).length ∧
      report.high_urgency_count =
        (feedbackInRange (freshReportState sampleWeek).dateRange fiveRecords).countP
          (fun f => f.urgency.strictEqStr "high") ∧
      report.sentiment_summary.positive =
        (feedbackInRange (freshReportState sampleWeek).dateRange fiveRecords).countP
          (fun f => f.sentiment.strictEqStr "positive") ∧
      report.sentiment_summary.neutral =
        (feedbackInRange (freshReportState sampleWeek).dateRange fiveRecords).countP
          (fun f => f.sentiment.strictEqStr "neutral") ∧
      report.sentiment_summary.negative =
        (feedbackInRange (freshReportState sampleWeek).dateRange fiveRecords).countP
          (fun f => f.sentiment.strictEqStr "negative") ∧
      (∀ (v : JSVal) (lit : String), v.strictEqStr lit = true ↔ v = .str lit) ∧
      ((reportEnvOf fiveRecords (.ok (.str "# Weekly"))).ReportCreate report = .ok () →
        (generateReport (reportEnvOf fiveRecords (.ok (.str "# Weekly")))
          (freshReportState sampleWeek)).persisted
          = (freshReportState sampleWeek).persisted ++ [report]) :=
  ⟨by decide,
    generateReport_summary_counts (reportEnvOf fiveRecords (.ok (.str "# Weekly")))
      (freshReportState sampleWeek) fiveRecords (.str "# Weekly") rfl
      (fun h => absurd (congrArg List.length h) (by decide)) rfl⟩

/-- C15: for every value the narrative call returns (every text in particular), the Report
handed to `Report.create` carries exactly that value as `report_markdown`, and when the
create call resolves the persisted Report and the `markdown` set for display are both
exactly that value. -/
theorem generateReport_markdown_verbatim (env : ReportEnv) (st : ReportState)
    (allFeedback : List FeedbackRecord) (reportMarkdown : JSVal)
    (hlist : env.FeedbackList = .ok allFeedback)
    (hne : feedbackInRange st.dateRange allFeedback ≠ [])
    (hllm : env.InvokeLLM (reportPrompt st.dateRange (feedbackInRange st.dateRange allFeedback))
      = .ok reportMarkdown)
    (hcreate : ∀ report, env.ReportCreate report = .ok ()) :
    ∃ report stats,
      (generateReport env st).createCalls = st.createCalls ++ [report] ∧
      (generateReport env st).persisted = st.persisted ++ [report] ∧
      report.report_markdown = reportMarkdown ∧
      (generateReport env st).generatedReport =
        some { markdown := reportMarkdown, stats := stats } := by
  obtain ⟨report, hrep, hcalls, _, _, _, _, _, hok⟩ :=
    generateReport_of_narrative env st allFeedback reportMarkdown hlist hne hllm
  refine ⟨report, _, hcalls, (hok (hcreate report)).1, ?_, (hok (hcreate report)).2⟩
  rw [hrep]

/-- Witness of C15: the text "# Weekly Customer Feedback Report" is persisted and
displayed as it is. -/
theorem generateReport_markdown_verbatim_witness :
    (generateReport (reportEnvOf fiveRecords (.ok (.str "# Weekly Customer Feedback Report")))
        (freshReportState sampleWeek)).persisted.map
      (fun r => r.report_markdown.strictEqStr "# Weekly Customer Feedback Report") = [true] ∧
    ∃ report stats,
      (generateReport (reportEnvOf fiveRecords (.ok (.str "# Weekly Customer Feedback Report")))
        (freshReportState sampleWeek)).createCalls
        = (freshReportState sampleWeek).createCalls ++ [report] ∧
      (generateReport (reportEnvOf fiveRecords (.ok (.str "# Weekly Customer Feedback Report")))
        (freshReportState sampleWeek)).persisted
        = (freshReportState sampleWeek).persisted ++ [report] ∧
      report.report_markdown = .str "# Weekly Customer Feedback Report" ∧
      (generateReport (reportEnvOf fiveRecords (.ok (.str "# Weekly Customer Feedback Report")))
        (freshReportState sampleWeek)).generatedReport =
        some { markdown := .str "# Weekly Customer Feedback Report", stats := stats } :=
  ⟨by decide,
    generateReport_markdown_verbatim
      (reportEnvOf fiveRecords (.ok (.str "# Weekly Customer Feedback Report")))
      (freshReportState sampleWeek) fiveRecords (.str "# Weekly Customer Feedback Report") rfl
      (fun h => absurd (congrArg List.length h) (by decide)) rfl (fun _ => rfl)⟩

/-- C16: when the narrative call throws, `generateReport` issues no `Report.create` call
and persists nothing. In every run, either no `Report.create` call is issued, or exactly
one is, and then the narrative call has returned a value, which is the `report_markdown`
of that one call; at most that one Report is persisted. -/
theorem generateReport_create_only_after_narrative (env : ReportEnv) (st : ReportState) :
    (∀ allFeedback err, env.FeedbackList = .ok allFeedback →
      env.InvokeLLM (reportPrompt st.dateRange (feedbackInRange st.dateRange allFeedback))
        = .error err →
      (generateReport env st).createCalls = st.createCalls ∧
      (generateReport env st).persisted = st.persisted) ∧
    (((generateReport env st).createCalls = st.createCalls ∧
        (generateReport env st).persisted = st.persisted) ∨
      ∃ allFeedback reportMarkdown report,
        env.FeedbackList = .ok allFeedback ∧
        feedbackInRange st.dateRange allFeedback ≠ [] ∧
        env.InvokeLLM (reportPrompt st.dateRange (feedbackInRange st.dateRange allFeedback))
          = .ok reportMarkdown ∧
        report.report_markdown = reportMarkdown ∧
        (generateReport env st).createCalls = st.createCalls ++ [report] ∧
        ((generateReport env st).persisted = st.persisted ∨
          (generateReport env st).persisted = st.persisted ++ [report])) := by
  constructor
  · intro allFeedback err hlist hllm
    by_cases hne : feedbackInRange st.dateRange allFeedback = []
    · rw [generateReport_of_empty env st allFeedback hlist hne]
      exact ⟨rfl, rfl⟩
    · rw [generateReport_of_narrative_throw env st allFeedback err hlist hne hllm]
      exact ⟨rfl, rfl⟩
  · cases hlist : env.FeedbackList with
    | error err =>
      left
      rw [generateReport_of_list_throw env st err hlist]
      exact ⟨rfl, rfl⟩
    | ok allFeedback =>
      by_cases hne : feedbackInRange st.dateRange allFeedback = []
      · left
        rw [generateReport_of_empty env st allFeedback hlist hne]
        exact ⟨rfl, rfl⟩
      · cases hllm : env.InvokeLLM
            (reportPrompt st.dateRange (feedbackInRange st.dateRange allFeedback)) with
        | error err =>
          left
          rw [generateReport_of_narrative_throw env st allFeedback err hlist hne hllm]
          exact ⟨rfl, rfl⟩
        | ok reportMarkdown =>
          right
          obtain ⟨report, hrep, hcalls, _, _, _, _, herr, hok⟩ :=
            generateReport_of_narrative env st allFeedback reportMarkdown hlist hne hllm
          refine ⟨allFeedback, reportMarkdown, report, rfl, hne, hllm, by rw [hrep], hcalls, ?_⟩
          cases hc : env.ReportCreate report with
          | error e => exact Or.inl (herr e hc).1
          | ok u => exact Or.inr (hok hc).1

/-- Witness of C16: the narrative call throws for a window holding five records. -/
theorem generateReport_create_only_after_narrative_witness :
    (generateReport (reportEnvOf fiveRecords (.error "Network Error"))
      (freshReportState sampleWeek)).createCalls.length = 0 ∧
    (generateReport (reportEnvOf fiveRecords (.error "Network Error"))
      (freshReportState sampleWeek)).persisted.length = 0 ∧
    (generateReport (reportEnvOf fiveRecords (.error "Network Error"))
      (freshReportState sampleWeek)).createCalls = (freshReportState sampleWeek).createCalls ∧
    (generateReport (reportEnvOf fiveRecords (.error "Network Error"))
      (freshReportState sampleWeek)).persisted = (freshReportState sampleWeek).persisted :=
  ⟨by decide, by decide,
    (generateReport_create_only_after_narrative (reportEnvOf fiveRecords (.error "Network Error"))
      (freshReportState sampleWeek)).1 fiveRecords "Network Error" rfl rfl⟩

/-- C17 fails on the code: the `catch` of `generateReport` only logs. After a request whose
narrative call throws, or whose `Report.create` call throws, every piece of component
state (`dateRange`, `isGenerating`, `generatedReport`, `copied`) is what it was before the
request; the component holds no error state. -/
theorem generateReport_failure_is_silent :
    (generateReport (reportEnvOf fiveRecords (.error "Network Error"))
        (freshReportState sampleWeek)).isGenerating = false ∧
    (generateReport (reportEnvOf fiveRecords (.error "Network Error"))
        (freshReportState sampleWeek)).generatedReport.isNone = true ∧
    (generateReport (reportEnvCreateFails fiveRecords (.str "# Weekly"))
        (freshReportState sampleWeek)).isGenerating = false ∧
    (generateReport (reportEnvCreateFails fiveRecords (.str "# Weekly"))
        (freshReportState sampleWeek)).generatedReport.isNone = true ∧
    ∀ (env : ReportEnv) (st : ReportState) (allFeedback : List FeedbackRecord),
      st.isGenerating = false →
      env.FeedbackList = .ok allFeedback →
      feedbackInRange st.dateRange allFeedback ≠ [] →
      ((∃ err, env.InvokeLLM
          (reportPrompt st.dateRange (feedbackInRange st.dateRange allFeedback)) = .error err) ∨
        (∃ reportMarkdown, env.InvokeLLM
          (reportPrompt st.dateRange (feedbackInRange st.dateRange allFeedback))
            = .ok reportMarkdown ∧
          ∀ report, ∃ err, env.ReportCreate report = .error err)) →
      (generateReport env st).dateRange = st.dateRange ∧
      (generateReport env st).isGenerating = st.isGenerating ∧
      (generateReport env st).generatedReport = st.generatedReport ∧
      (generateReport env st).copied = st.copied := by
  refine ⟨by decide, by decide, by decide, by decide, ?_⟩
  intro env st allFeedback hgen hlist hne hfail
  rcases hfail with ⟨err, hllm⟩ | ⟨reportMarkdown, hllm, hcreate⟩
  · rw [generateReport_of_narrative_throw env st allFeedback err hlist hne hllm]
    exact ⟨rfl, hgen.symm, rfl, rfl⟩
  · obtain ⟨report, _, _, _, hg, hd, hc, herr, _⟩ :=
      generateReport_of_narrative env st allFeedback reportMarkdown hlist hne hllm
    obtain ⟨e, he⟩ := hcreate report
    exact ⟨hd, by rw [hg, hgen], (herr e he).2, hc⟩

/-! ## Tallies -/

theorem keyCount_cons (field : FeedbackRecord → JSVal) (key : String) (a : FeedbackRecord)
    (l : List FeedbackRecord) :
    keyCount field key (a :: l) =
      (if (field a).truthy = true ∧ (field a).toPropertyKey = key then 1 else 0) +
        keyCount field key l := by
  unfold keyCount
  by_cases h : (field a).truthy = true ∧ (field a).toPropertyKey = key
  · simp [List.filter_cons, h]
    omega
  · rw [if_neg h]
    have : ((field a).truthy && decide ((field a).toPropertyKey = key)) = false := by
      rw [Bool.and_eq_false_iff]
      by_cases ht : (field a).truthy = true
      · right
        exact decide_eq_false (fun hk => h ⟨ht, hk⟩)
      · left
        exact Bool.eq_false_iff.mpr ht
    simp [List.filter_cons, this]

theorem foldl_tallyUrgency (l : List FeedbackRecord) (c : UrgencyCounts) :
    l.foldl
        (fun counts f =>
          if f.urgency.truthy then counts.increment f.urgency.toPropertyKey else counts) c =
      { high := c.high + keyCount (fun f => f.urgency) "high" l
        medium := c.medium + keyCount (fun f => f.urgency) "medium" l
        low := c.low + keyCount (fun f => f.urgency) "low" l } := by
  induction l generalizing c with
  | nil => simp [keyCount]
  | cons a as ih =>
    rw [List.foldl_cons, ih, keyCount_cons, keyCount_cons, keyCount_cons]
    by_cases ht : a.urgency.truthy = true
    · by_cases h1 : a.urgency.toPropertyKey = "high"
      · simp [UrgencyCounts.increment, ht, h1]
        omega
      · by_cases h2 : a.urgency.toPropertyKey = "medium"
        · simp [UrgencyCounts.increment, ht, h2]
          omega
        · by_cases h3 : a.urgency.toPropertyKey = "low"
          · simp [UrgencyCounts.increment, ht, h3]
            omega
          · simp [UrgencyCounts.increment, ht, h1, h2, h3]
    · simp [ht]

theorem foldl_tallySentiment (l : List FeedbackRecord) (c : SentimentCounts) :
    l.foldl
        (fun counts f =>
          if f.sentiment.truthy then counts.increment f.sentiment.toPropertyKey else counts) c =
      { positive := c.positive + keyCount (fun f => f.sentiment) "positive" l
        neutral := c.neutral + keyCount (fun f => f.sentiment) "neutral" l
        negative := c.negative + keyCount (fun f => f.sentiment) "negative" l } := by
  induction l generalizing c with
  | nil => simp [keyCount]
  | cons a as ih =>
    rw [List.foldl_cons, ih, keyCount_cons, keyCount_cons, keyCount_cons]
    by_cases ht : a.sentiment.truthy = true
    · by_cases h1 : a.sentiment.toPropertyKey = "positive"
      · simp [SentimentCounts.increment, ht, h1]
        omega
      · by_cases h2 : a.sentiment.toPropertyKey = "neutral"
        · simp [SentimentCounts.increment, ht, h2]
          omega
        · by_cases h3 : a.sentiment.toPropertyKey = "negative"
          · simp [SentimentCounts.increment, ht, h3]
            omega
          · simp [SentimentCounts.increment, ht, h1, h2, h3]
    · simp [ht]

theorem foldl_tallyCategory (l : List FeedbackRecord) (c : CategoryCounts) :
    l.foldl
        (fun counts f =>
          if f.category.truthy then counts.increment f.category.toPropertyKey else counts) c =
      { bug := c.bug + keyCount (fun f => f.category) "bug" l
        feature_request := c.feature_request + keyCount (fun f => f.category) "feature_request" l
        ux_issue := c.ux_issue + keyCount (fun f => f.category) "ux_issue" l
        pricing := c.pricing + keyCount (fun f => f.category) "pricing" l
        other := c.other + keyCount (fun f => f.category) "other" l } := by
  induction l generalizing c with
  | nil => simp [keyCount]
  | cons a as ih =>
    rw [List.foldl_cons, ih, keyCount_cons, keyCount_cons, keyCount_cons, keyCount_cons,
      keyCount_cons]
    by_cases ht : a.category.truthy = true
    · by_cases h1 : a.category.toPropertyKey = "bug"
      · simp [CategoryCounts.increment, ht, h1]
        omega
      · by_cases h2 : a.category.toPropertyKey = "feature_request"
        · simp [CategoryCounts.increment, ht, h2]
          omega
        · by_cases h3 : a.category.toPropertyKey = "ux_issue"
          · simp [CategoryCounts.increment, ht, h3]
            omega
          · by_cases h4 : a.category.toPropertyKey = "pricing"
            · simp [CategoryCounts.increment, ht, h4]
              omega
            · by_cases h5 : a.category.toPropertyKey = "other"
              · simp [CategoryCounts.increment, ht, h5]
                omega
              · simp [CategoryCounts.increment, ht, h1, h2, h3, h4, h5]
    · simp [ht]

theorem tallyUrgency_eq (feedback : List FeedbackRecord) :
    tallyUrgency feedback =
      { high := keyCount (fun f => f.urgency) "high" feedback
        medium := keyCount (fun f => f.urgency) "medium" feedback
        low := keyCount (fun f => f.urgency) "low" feedback } := by
  unfold tallyUrgency
  rw [foldl_tallyUrgency]
  simp

theorem tallySentiment_eq (feedback : List FeedbackRecord) :
    tallySentiment feedback =
      { positive := keyCount (fun f => f.sentiment) "positive" feedback
        neutral := keyCount (fun f => f.sentiment) "neutral" feedback
        negative := keyCount (fun f => f.sentiment) "negative" feedback } := by
  unfold tallySentiment
  rw [foldl_tallySentiment]
  simp

theorem tallyCategory_eq (feedback : List FeedbackRecord) :
    tallyCategory feedback =
      { bug := keyCount (fun f => f.category) "bug" feedback
        feature_request := keyCount (fun f => f.category) "feature_request" feedback
        ux_issue := keyCount (fun f => f.category) "ux_issue" feedback
        pricing := keyCount (fun f => f.category) "pricing" feedback
        other := keyCount (fun f => f.category) "other" feedback } := by
  unfold tallyCategory
  rw [foldl_tallyCategory]
  simp

theorem keyCount_eq_zero_iff (field : FeedbackRecord → JSVal) (key : String)
    (feedback : List FeedbackRecord) :
    keyCount field key feedback = 0 ↔
      ∀ f ∈ feedback, ¬ ((field f).truthy = true ∧ (field f).toPropertyKey = key) := by
  induction feedback with
  | nil => simp [keyCount]
  | cons a as ih =>
    rw [keyCount_cons]
    by_cases h : (field a).truthy = true ∧ (field a).toPropertyKey = key
    · rw [if_pos h]
      constructor
      · intro h0; omega
      · intro hall
        exact absurd h (hall a (List.mem_cons_self _ _))
    · rw [if_neg h, Nat.zero_add, ih]
      constructor
      · intro hall f hf
        rcases List.mem_cons.mp hf with rfl | hf
        · exact h
        · exact hall f hf
      · intro hall f hf
        exact hall f (List.mem_cons_of_mem _ hf)

theorem str_key (lit : String) (h : lit ≠ "") :
    (JSVal.str lit).truthy = true ∧ (JSVal.str lit).toPropertyKey = lit ∧
      (JSVal.str lit).isNullish = false := by
  refine ⟨?_, ?_, rfl⟩
  · simp [JSVal.truthy, h]
  · simp [JSVal.toPropertyKey]

theorem totalValue_filter_pos (series : List ChartEntry) :
    totalValue (series.filter (fun item => decide (item.value > 0))) = totalValue series := by
  induction series with
  | nil => rfl
  | cons a as ih =>
    unfold totalValue at ih ⊢
    by_cases h : a.value > 0
    · simp [List.filter_cons, h, ih]
    · have h0 : a.value = 0 := by omega
      simp [List.filter_cons, h, ih, h0]

theorem setCount_cons (field : FeedbackRecord → JSVal) (a : FeedbackRecord)
    (l : List FeedbackRecord) :
    setCount field (a :: l) = (if (field a).isNullish = true then 0 else 1) + setCount field l := by
  unfold setCount
  by_cases h : (field a).isNullish = true
  · simp [List.filter_cons, h]
  · simp [List.filter_cons, h]
    omega

theorem setCount_le (field : FeedbackRecord → JSVal) (l : List FeedbackRecord) :
    setCount field l ≤ l.length :=
  List.length_filter_le _ _

theorem level_sum (field : FeedbackRecord → JSVal) (l : List FeedbackRecord)
    (h : ∀ f ∈ l, UnsetOr IsLevel (field f)) :
    keyCount field "high" l + keyCount field "medium" l + keyCount field "low" l =
      setCount field l := by
  induction l with
  | nil => rfl
  | cons a as ih =>
    have ih := ih (fun f hf => h f (List.mem_cons_of_mem _ hf))
    rw [keyCount_cons, keyCount_cons, keyCount_cons, setCount_cons]
    rcases h a (List.mem_cons_self _ _) with hu | hu | hu | hu | hu <;>
      rw [hu] <;> simp [JSVal.truthy, JSVal.toPropertyKey, JSVal.isNullish] <;> omega

theorem sentiment_sum (field : FeedbackRecord → JSVal) (l : List FeedbackRecord)
    (h : ∀ f ∈ l, UnsetOr IsSentiment (field f)) :
    keyCount field "positive" l + keyCount field "neutral" l + keyCount field "negative" l =
      setCount field l := by
  induction l with
  | nil => rfl
  | cons a as ih =>
    have ih := ih (fun f hf => h f (List.mem_cons_of_mem _ hf))
    rw [keyCount_cons, keyCount_cons, keyCount_cons, setCount_cons]
    rcases h a (List.mem_cons_self _ _) with hu | hu | hu | hu | hu <;>
      rw [hu] <;> simp [JSVal.truthy, JSVal.toPropertyKey, JSVal.isNullish] <;> omega

theorem category_sum (field : FeedbackRecord → JSVal) (l : List FeedbackRecord)
    (h : ∀ f ∈ l, UnsetOr IsCategory (field f)) :
    keyCount field "bug" l + keyCount field "feature_request" l + keyCount field "ux_issue" l +
        keyCount field "pricing" l + keyCount field "other" l =
      setCount field l := by
  induction l with
  | nil => rfl
  | cons a as ih =>
    have ih := ih (fun f hf => h f (List.mem_cons_of_mem _ hf))
    rw [keyCount_cons, keyCount_cons, keyCount_cons, keyCount_cons, keyCount_cons,
      setCount_cons]
    rcases h a (List.mem_cons_self _ _) with hu | hu | hu | hu | hu | hu | hu <;>
      rw [hu] <;> simp [JSVal.truthy, JSVal.toPropertyKey, JSVal.isNullish] <;> omega

theorem setCount_of_all_set (field : FeedbackRecord → JSVal) (l : List FeedbackRecord)
    (h : ∀ f ∈ l, (field f).isNullish = false) : setCount field l = l.length := by
  unfold setCount
  rw [List.filter_eq_self.mpr]
  intro f hf
  simp [h f hf]

/-- C18, as the claim states it, fails for `getCategoryData`: it drops the entries whose
value is 0. Five records, all of category "ux_issue", give the single entry "UX Issue";
the four categories that no record has are missing, and no record at all gives no entry. -/
theorem getCategoryData_drops_absent_categories :
    getCategoryData fiveRecords = [{ name := "UX Issue", value := 5, color := "#3b82f6" }] ∧
    (getCategoryData []).length = 0 := by
  constructor <;> decide

/-- C18 (amended): `getUrgencyData` and `getSentimentData` return exactly one entry per
enum value (High, Medium, Low; Positive, Neutral, Negative), each carrying the number of
records whose field names that value, which is 0 when no record does. `getCategoryData`
returns, in the order Bug, Feature Request, UX Issue, Pricing, Other, only the entries
whose count is greater than 0: at most 5 entries, a category that no record has being
left out. -/
theorem chart_series_entries (feedback : List FeedbackRecord) :
    getUrgencyData feedback =
      [ { name := "High", value := keyCount (fun f => f.urgency) "high" feedback,
          color := "#dc2626" },
        { name := "Medium", value := keyCount (fun f => f.urgency) "medium" feedback,
          color := "#f59e0b" },
        { name := "Low", value := keyCount (fun f => f.urgency) "low" feedback,
          color := "#3b82f6" } ] ∧
    getSentimentData feedback =
      [ { name := "Positive", value := keyCount (fun f => f.sentiment) "positive" feedback,
          color := "#10b981" },
        { name := "Neutral", value := keyCount (fun f => f.sentiment) "neutral" feedback,
          color := "#f59e0b" },
        { name := "Negative", value := keyCount (fun f => f.sentiment) "negative" feedback,
          color := "#ef4444" } ] ∧
    getCategoryData feedback =
      ([ { name := "Bug", value := keyCount (fun f => f.category) "bug" feedback,
           color := "#ef4444" },
         { name := "Feature Request",
           value := keyCount (fun f => f.category) "feature_request" feedback,
           color := "#a855f7" },
         { name := "UX Issue", value := keyCount (fun f => f.category) "ux_issue" feedback,
           color := "#3b82f6" },
         { name := "Pricing", value := keyCount (fun f => f.category) "pricing" feedback,
           color := "#10b981" },
         { name := "Other", value := keyCount (fun f => f.category) "other" feedback,
           color := "#6b7280" } ] : List ChartEntry).filter
        (fun item => decide (item.value > 0)) ∧
    (getUrgencyData feedback).length = 3 ∧
    (getSentimentData feedback).length = 3 ∧
    (getCategoryData feedback).length ≤ 5 ∧
    (∀ item ∈ getCategoryData feedback, item.value > 0) ∧
    (∀ (field : FeedbackRecord → JSVal) (key : String),
      keyCount field key feedback = 0 ↔
        ∀ f ∈ feedback, ¬ ((field f).truthy = true ∧ (field f).toPropertyKey = key)) ∧
    (∀ lit : String, lit ≠ "" →
      (JSVal.str lit).truthy = true ∧ (JSVal.str lit).toPropertyKey = lit) := by
  refine ⟨?_, ?_, ?_, rfl, rfl, ?_, ?_, ?_, ?_⟩
  · simp only [getUrgencyData, tallyUrgency_eq]
  · simp only [getSentimentData, tallySentiment_eq]
  · simp only [getCategoryData, tallyCategory_eq]
  · unfold getCategoryData
    exact List.length_filter_le _ _
  · intro item hitem
    unfold getCategoryData at hitem
    have := (List.mem_filter.mp hitem).2
    exact of_decide_eq_true this
  · intro field key
    exact keyCount_eq_zero_iff field key feedback
  · intro lit hlit
    exact ⟨(str_key lit hlit).1, (str_key lit hlit).2.1⟩

/-- Witness of C18 (amended): five records with urgencies low, high, medium, low, high. -/
theorem chart_series_entries_witness :
    getUrgencyData fiveRecords =
      [ { name := "High", value := 2, color := "#dc2626" },
        { name := "Medium", value := 1, color := "#f59e0b" },
        { name := "Low", value := 2, color := "#3b82f6" } ] ∧
    getSentimentData [] =
      [ { name := "Positive", value := 0, color := "#10b981" },
        { name := "Neutral", value := 0, color := "#f59e0b" },
        { name := "Negative", value := 0, color := "#ef4444" } ] ∧
    (getUrgencyData fiveRecords).length = 3 ∧
    (getCategoryData fiveRecords).length ≤ 5 :=
  ⟨by decide, by decide, (chart_series_entries fiveRecords).2.2.2.1,
    (chart_series_entries fiveRecords).2.2.2.2.2.1⟩

/-- C19: for every collection whose records have the field unset or holding a value of
its enum, the sum of the values returned by that field's tally (`getUrgencyData`,
`getCategoryData`, `getSentimentData`, and the counts of `getSentimentCounts`) is the
number of records that have the field set; it is the number of all records when every
record is classified. -/
theorem tally_sums_count_set_fields (feedback : List FeedbackRecord) :
    ((∀ f ∈ feedback, UnsetOr IsLevel f.urgency) →
      totalValue (getUrgencyData feedback) = setCount (fun f => f.urgency) feedback) ∧
    ((∀ f ∈ feedback, UnsetOr IsCategory f.category) →
      totalValue (getCategoryData feedback) = setCount (fun f => f.category) feedback) ∧
    ((∀ f ∈ feedback, UnsetOr IsSentiment f.sentiment) →
      totalValue (getSentimentData feedback) = setCount (fun f => f.sentiment) feedback ∧
      (getSentimentCounts feedback).positive + (getSentimentCounts feedback).neutral +
        (getSentimentCounts feedback).negative = setCount (fun f => f.sentiment) feedback) ∧
    ((∀ f ∈ feedback, IsLevel f.urgency ∧ IsCategory f.category ∧ IsSentiment f.sentiment) →
      totalValue (getUrgencyData feedback) = feedback.length ∧
      totalValue (getCategoryData feedback) = feedback.length ∧
      totalValue (getSentimentData feedback) = feedback.length) := by
  have hu : (∀ f ∈ feedback, UnsetOr IsLevel f.urgency) →
      totalValue (getUrgencyData feedback) = setCount (fun f => f.urgency) feedback := by
    intro h
    have hsum := level_sum (fun f => f.urgency) feedback h
    simp only [getUrgencyData, tallyUrgency_eq, totalValue, List.map, List.sum_cons,
      List.sum_nil]
    omega
  have hc : (∀ f ∈ feedback, UnsetOr IsCategory f.category) →
      totalValue (getCategoryData feedback) = setCount (fun f => f.category) feedback := by
    intro h
    have hsum := category_sum (fun f => f.category) feedback h
    unfold getCategoryData
    rw [totalValue_filter_pos]
    simp only [tallyCategory_eq, totalValue, List.map, List.sum_cons, List.sum_nil]
    omega
  have hs : (∀ f ∈ feedback, UnsetOr IsSentiment f.sentiment) →
      totalValue (getSentimentData feedback) = setCount (fun f => f.sentiment) feedback ∧
      (getSentimentCounts feedback).positive + (getSentimentCounts feedback).neutral +
        (getSentimentCounts feedback).negative = setCount (fun f => f.sentiment) feedback := by
    intro h
    have hsum := sentiment_sum (fun f => f.sentiment) feedback h
    constructor
    · simp only [getSentimentData, tallySentiment_eq, totalValue, List.map, List.sum_cons,
        List.sum_nil]
      omega
    · simp only [getSentimentCounts, tallySentiment_eq]
      omega
  refine ⟨hu, hc, hs, ?_⟩
  intro hall
  have nu : ∀ v, IsLevel v → v.isNullish = false := by
    rintro v (h | h | h) <;> rw [h] <;> rfl
  have nc : ∀ v, IsCategory v → v.isNullish = false := by
    rintro v (h | h | h | h | h) <;> rw [h] <;> rfl
  have ns : ∀ v, IsSentiment v → v.isNullish = false := by
    rintro v (h | h | h) <;> rw [h] <;> rfl
  refine ⟨?_, ?_, ?_⟩
  · rw [hu (fun f hf => Or.inr (Or.inr (hall f hf).1))]
    exact setCount_of_all_set _ _ (fun f hf => nu _ (hall f hf).1)
  · rw [hc (fun f hf => Or.inr (Or.inr (hall f hf).2.1))]
    exact setCount_of_all_set _ _ (fun f hf => nc _ (hall f hf).2.1)
  · rw [(hs (fun f hf => Or.inr (Or.inr (hall f hf).2.2))).1]
    exact setCount_of_all_set _ _ (fun f hf => ns _ (hall f hf).2.2)

theorem fiveRecords_classified :
    ∀ f ∈ fiveRecords, IsLevel f.urgency ∧ IsCategory f.category ∧ IsSentiment f.sentiment := by
  intro f hf
  simp only [fiveRecords, List.mem_cons, List.mem_singleton, List.not_mem_nil, or_false] at hf
  rcases hf with rfl | rfl | rfl | rfl | rfl <;>
    simp [recordAt, IsLevel, IsCategory, IsSentiment]

/-- Witness of C19: five classified records give the sum 5 for each of the three tallies. -/
theorem tally_sums_count_set_fields_witness :
    (totalValue (getUrgencyData fiveRecords), totalValue (getCategoryData fiveRecords),
      totalValue (getSentimentData fiveRecords), setCount (fun f => f.urgency) fiveRecords)
      = (5, 5, 5, 5) ∧
    totalValue (getUrgencyData fiveRecords) = fiveRecords.length ∧
    totalValue (getCategoryData fiveRecords) = fiveRecords.length ∧
    totalValue (getSentimentData fiveRecords) = fiveRecords.length :=
  ⟨by decide, (tally_sums_count_set_fields fiveRecords).2.2.2 fiveRecords_classified⟩

/-! ## Seven-day trend -/

/-- C20: for every collection, every time zone and every current date `today` (the local
calendar day on which the clock stands while the function runs), `getTrendData` returns
exactly 7 entries, the k-th one (counted from 0) for the local calendar day
today - 6 + k: seven consecutive days, oldest first, the last entry being today. -/
theorem getTrendData_seven_days (localDay : TimeZone) (clock : Nat → Int) (today : Int)
    (feedback : List FeedbackRecord) (hclock : ∀ i, i ≤ 6 → localDay (clock i) = today) :
    (getTrendData localDay clock feedback).length = 7 ∧
    (getTrendData localDay clock feedback).map (fun item => item.date) =
      [today - 6, today - 5, today - 4, today - 3, today - 2, today - 1, today] ∧
    (∀ k : Nat, k < 7 →
      ((getTrendData localDay clock feedback)[k]?).map (fun item => item.date) =
        some (today - 6 + (k : Int))) ∧
    ((getTrendData localDay clock feedback).getLast?).map (fun item => item.date) =
      some today := by
  have hdates : (getTrendData localDay clock feedback).map (fun item => item.date) =
      [today - 6, today - 5, today - 4, today - 3, today - 2, today - 1, today] := by
    simp [getTrendData, trendLoop, trendEntry, hclock]
  refine ⟨?_, hdates, ?_, ?_⟩
  · simp [getTrendData, trendLoop]
  · intro k hk
    rw [← List.getElem?_map, hdates]
    have : k = 0 ∨ k = 1 ∨ k = 2 ∨ k = 3 ∨ k = 4 ∨ k = 5 ∨ k = 6 := by omega
    rcases this with rfl | rfl | rfl | rfl | rfl | rfl | rfl <;> simp <;> omega
  · simp [getTrendData, trendLoop, trendEntry, hclock]

/-- Witness of C20: the trend computed in UTC on 2024-01-20 at 10:30 spans the days
2024-01-14 (day 19736) to 2024-01-20 (day 19742). -/
theorem getTrendData_seven_days_witness :
    (getTrendData utc (fun _ => 1705746600000) fiveRecords).map
      (fun item => (item.date, item.positive, item.neutral, item.negative)) =
      [(19736, 1, 0, 0), (19737, 0, 0, 1), (19738, 1, 0, 0), (19739, 0, 1, 0),
        (19740, 1, 0, 0), (19741, 0, 0, 0), (19742, 0, 0, 0)] ∧
    (getTrendData utc (fun _ => 1705746600000) fiveRecords).length = 7 ∧
    (getTrendData utc (fun _ => 1705746600000) fiveRecords).map (fun item => item.date) =
      [19742 - 6, 19742 - 5, 19742 - 4, 19742 - 3, 19742 - 2, 19742 - 1, 19742] :=
  ⟨by decide,
    (getTrendData_seven_days utc (fun _ => 1705746600000) 19742 fiveRecords
      (fun _ _ => show utc 1705746600000 = 19742 by decide)).1,
    (getTrendData_seven_days utc (fun _ => 1705746600000) 19742 fiveRecords
      (fun _ _ => show utc 1705746600000 = 19742 by decide)).2.1⟩

theorem getTrendData_eq (localDay : TimeZone) (clock : Nat → Int)
    (feedback : List FeedbackRecord) :
    getTrendData localDay clock feedback =
      [trendEntry localDay (clock 6) feedback 6, trendEntry localDay (clock 5) feedback 5,
        trendEntry localDay (clock 4) feedback 4, trendEntry localDay (clock 3) feedback 3,
        trendEntry localDay (clock 2) feedback 2, trendEntry localDay (clock 1) feedback 1,
        trendEntry localDay (clock 0) feedback 0] := by
  simp [getTrendData, trendLoop]

theorem trendEntry_counts (localDay : TimeZone) (now : Int) (feedback : List FeedbackRecord)
    (i : Nat) (lit : String) :
    ((feedback.filter (fun f => decide (localDay f.created_date = localDay now - (i : Int)))).filter
        (fun f => f.sentiment.strictEqStr lit)).length =
      feedback.countP (fun f =>
        decide (localDay f.created_date = localDay now - (i : Int)) &&
          f.sentiment.strictEqStr lit) := by
  rw [List.filter_filter, List.countP_eq_length_filter]
  congr 1
  apply List.filter_congr
  intro f _
  exact Bool.and_comm _ _

/-- C21: for every collection and each of the 7 trend days (the k-th entry being the one of
the local calendar day today - 6 + k), the entry's positive, neutral and negative values
are the numbers of records whose creation time falls on that local calendar day and whose
sentiment is "positive", "neutral", "negative"; a day on which no record was created
reports 0, 0, 0. -/
theorem getTrendData_day_counts (localDay : TimeZone) (clock : Nat → Int) (today : Int)
    (feedback : List FeedbackRecord) (hclock : ∀ i, i ≤ 6 → localDay (clock i) = today)
    (k : Nat) (hk : k < 7) :
    ∃ item, (getTrendData localDay clock feedback)[k]? = some item ∧
      item.date = today - 6 + (k : Int) ∧
      item.positive = feedback.countP (fun f =>
        decide (localDay f.created_date = item.date) && f.sentiment.strictEqStr "positive") ∧
      item.neutral = feedback.countP (fun f =>
        decide (localDay f.created_date = item.date) && f.sentiment.strictEqStr "neutral") ∧
      item.negative = feedback.countP (fun f =>
        decide (localDay f.created_date = item.date) && f.sentiment.strictEqStr "negative") ∧
      ((∀ f ∈ feedback, localDay f.created_date ≠ item.date) →
        item.positive = 0 ∧ item.neutral = 0 ∧ item.negative = 0) := by
  have key : ∀ i : Nat, i ≤ 6 →
      (trendEntry localDay (clock i) feedback i).date = today - (i : Int) ∧
      (trendEntry localDay (clock i) feedback i).positive = feedback.countP (fun f =>
        decide (localDay f.created_date = today - (i : Int)) &&
          f.sentiment.strictEqStr "positive") ∧
      (trendEntry localDay (clock i) feedback i).neutral = feedback.countP (fun f =>
        decide (localDay f.created_date = today - (i : Int)) &&
          f.sentiment.strictEqStr "neutral") ∧
      (trendEntry localDay (clock i) feedback i).negative = feedback.countP (fun f =>
        decide (localDay f.created_date = today - (i : Int)) &&
          f.sentiment.strictEqStr "negative") := by
    intro i hi
    have h := hclock i hi
    refine ⟨?_, ?_, ?_, ?_⟩
    · simp only [trendEntry, h]
    · simp only [trendEntry]
      rw [trendEntry_counts, h]
    · simp only [trendEntry]
      rw [trendEntry_counts, h]
    · simp only [trendEntry]
      rw [trendEntry_counts, h]
  have zero : ∀ (day : Int) (lit : String), (∀ f ∈ feedback, localDay f.created_date ≠ day) →
      feedback.countP (fun f =>
        decide (localDay f.created_date = day) && f.sentiment.strictEqStr lit) = 0 := by
    intro day lit hnone
    rw [List.countP_eq_zero]
    intro f hf
    simp [hnone f hf]
  have hcases : k = 0 ∨ k = 1 ∨ k = 2 ∨ k = 3 ∨ k = 4 ∨ k = 5 ∨ k = 6 := by omega
  have build : ∀ i : Nat, i ≤ 6 → (today - (i : Int) = today - 6 + (k : Int)) →
      (getTrendData localDay clock feedback)[k]? = some (trendEntry localDay (clock i) feedback i) →
      ∃ item, (getTrendData localDay clock feedback)[k]? = some item ∧
        item.date = today - 6 + (k : Int) ∧
        item.positive = feedback.countP (fun f =>
          decide (localDay f.created_date = item.date) && f.sentiment.strictEqStr "positive") ∧
        item.neutral = feedback.countP (fun f =>
          decide (localDay f.created_date = item.date) && f.sentiment.strictEqStr "neutral") ∧
        item.negative = feedback.countP (fun f =>
          decide (localDay f.created_date = item.date) && f.sentiment.strictEqStr "negative") ∧
        ((∀ f ∈ feedback, localDay f.created_date ≠ item.date) →
          item.positive = 0 ∧ item.neutral = 0 ∧ item.negative = 0) := by
    intro i hi hday hget
    obtain ⟨hd, hp, hn, hg⟩ := key i hi
    refine ⟨_, hget, hd.trans hday, ?_, ?_, ?_, ?_⟩
    · rw [hp, hd]
    · rw [hn, hd]
    · rw [hg, hd]
    · intro hnone
      rw [hd] at hnone
      rw [hp, hn, hg]
      exact ⟨zero _ _ hnone, zero _ _ hnone, zero _ _ hnone⟩
  rw [getTrendData_eq] at build ⊢
  rcases hcases with rfl | rfl | rfl | rfl | rfl | rfl | rfl
  · exact build 6 (by omega) (by simp) rfl
  · exact build 5 (by omega) (by push_cast; omega) rfl
  · exact build 4 (by omega) (by push_cast; omega) rfl
  · exact build 3 (by omega) (by push_cast; omega) rfl
  · exact build 2 (by omega) (by push_cast; omega) rfl
  · exact build 1 (by omega) (by push_cast; omega) rfl
  · exact build 0 (by omega) (by push_cast; omega) rfl

/-- Witness of C21: in UTC on 2024-01-20, the entry of 2024-01-15 (k = 1) counts the one
negative record of that day. -/
theorem getTrendData_day_counts_witness :
    ((getTrendData utc (fun _ => 1705746600000) fiveRecords)[1]?).map
      (fun item => (item.date, item.positive, item.neutral, item.negative))
      = some (19737, 0, 0, 1) ∧
    ∃ item, (getTrendData utc (fun _ => 1705746600000) fiveRecords)[1]? = some item ∧
      item.date = 19742 - 6 + ((1 : Nat) : Int) ∧
      item.positive = fiveRecords.countP (fun f =>
        decide (utc f.created_date = item.date) && f.sentiment.strictEqStr "positive") ∧
      item.neutral = fiveRecords.countP (fun f =>
        decide (utc f.created_date = item.date) && f.sentiment.strictEqStr "neutral") ∧
      item.negative = fiveRecords.countP (fun f =>
        decide (utc f.created_date = item.date) && f.sentiment.strictEqStr "negative") ∧
      ((∀ f ∈ fiveRecords, utc f.created_date ≠ item.date) →
        item.positive = 0 ∧ item.neutral = 0 ∧ item.negative = 0) :=
  ⟨by decide,
    getTrendData_day_counts utc (fun _ => 1705746600000) 19742 fiveRecords
      (fun _ _ => show utc 1705746600000 = 19742 by decide) 1 (by decide)⟩

/-! ## Dashboard percentage bars -/

theorem barWidth_of_empty {F : Type} (ops : NumberOps F) (count : Nat)
    (feedback : List FeedbackRecord) (h : feedback.length = 0) :
    barWidth ops count feedback = { value := ops.ofNat 0, divisions := [] } := by
  simp [barWidth, h]

theorem barWidth_of_nonempty {F : Type} (ops : NumberOps F) (count : Nat)
    (feedback : List FeedbackRecord) (h : feedback.length > 0) :
    barWidth ops count feedback =
      { value :=
          ops.mul (ops.div (ops.ofNat count) (ops.ofNat feedback.length)) (ops.ofNat 100)
        divisions := [(count, feedback.length)] } := by
  have hne : feedback.length ≠ 0 := by omega
  simp [barWidth, hne]

theorem barWidth_divisor_ne_zero {F : Type} (ops : NumberOps F) (count : Nat)
    (feedback : List FeedbackRecord) :
    ∀ d ∈ (barWidth ops count feedback).divisions, d.2 ≠ 0 := by
  intro d hd
  by_cases h : feedback.length = 0
  · rw [barWidth_of_empty ops count feedback h] at hd
    simp at hd
  · rw [barWidth_of_nonempty ops count feedback (by omega)] at hd
    simp at hd
    rw [hd]
    exact h

/-- C22: in the arithmetic of JavaScript numbers (any arithmetic `ops`, the doubles of the
browser included), the width of each Dashboard sentiment bar is the number 0 when the
total is 0, no division being evaluated, and the value of count / total * 100 when the
total is greater than 0; every division evaluated has a divisor other than 0, and over the
empty collection the three widths are 0. -/
theorem sentimentWidths_guarded {F : Type} (ops : NumberOps F)
    (feedback : List FeedbackRecord) :
    (feedback.length = 0 →
      (sentimentWidths ops feedback).positive = { value := ops.ofNat 0, divisions := [] } ∧
      (sentimentWidths ops feedback).neutral = { value := ops.ofNat 0, divisions := [] } ∧
      (sentimentWidths ops feedback).negative = { value := ops.ofNat 0, divisions := [] }) ∧
    (feedback.length > 0 →
      (sentimentWidths ops feedback).positive.value =
        ops.mul (ops.div (ops.ofNat (getSentimentCounts feedback).positive)
          (ops.ofNat feedback.length)) (ops.ofNat 100) ∧
      (sentimentWidths ops feedback).neutral.value =
        ops.mul (ops.div (ops.ofNat (getSentimentCounts feedback).neutral)
          (ops.ofNat feedback.length)) (ops.ofNat 100) ∧
      (sentimentWidths ops feedback).negative.value =
        ops.mul (ops.div (ops.ofNat (getSentimentCounts feedback).negative)
          (ops.ofNat feedback.length)) (ops.ofNat 100)) ∧
    (∀ d ∈ (sentimentWidths ops feedback).positive.divisions ++
        (sentimentWidths ops feedback).neutral.divisions ++
        (sentimentWidths ops feedback).negative.divisions, d.2 ≠ 0) ∧
    ((sentimentWidths ops []).positive = { value := ops.ofNat 0, divisions := [] } ∧
      (sentimentWidths ops []).neutral = { value := ops.ofNat 0, divisions := [] } ∧
      (sentimentWidths ops []).negative = { value := ops.ofNat 0, divisions := [] }) := by
  refine ⟨?_, ?_, ?_, ?_⟩
  · intro h
    exact ⟨barWidth_of_empty ops _ _ h, barWidth_of_empty ops _ _ h,
      barWidth_of_empty ops _ _ h⟩
  · intro h
    simp only [sentimentWidths]
    rw [barWidth_of_nonempty ops _ _ h, barWidth_of_nonempty ops _ _ h,
      barWidth_of_nonempty ops _ _ h]
    exact ⟨rfl, rfl, rfl⟩
  · intro d hd
    simp only [List.mem_append] at hd
    rcases hd with (hd | hd) | hd
    · exact barWidth_divisor_ne_zero ops _ feedback d hd
    · exact barWidth_divisor_ne_zero ops _ feedback d hd
    · exact barWidth_divisor_ne_zero ops _ feedback d hd
  · simp [sentimentWidths, barWidth]

/-- Witness of C22: for five records, three of them positive, the width of the positive
bar is the value of 3 / 5 * 100, one division by 5 being evaluated; for no record it is 0
and nothing is divided. -/
theorem sentimentWidths_guarded_witness :
    (sentimentWidths writtenOut fiveRecords).positive =
      { value := .mul (.div (.lit 3) (.lit 5)) (.lit 100), divisions := [(3, 5)] } ∧
    (sentimentWidths writtenOut []).positive = { value := .lit 0, divisions := [] } ∧
    (sentimentWidths writtenOut fiveRecords).positive.value =
      writtenOut.mul (writtenOut.div (writtenOut.ofNat (getSentimentCounts fiveRecords).positive)
        (writtenOut.ofNat fiveRecords.length)) (writtenOut.ofNat 100) :=
  ⟨rfl, rfl, ((sentimentWidths_guarded writtenOut fiveRecords).2.1 (by decide)).1⟩

/-! ## File selection, extraction outcome and saving -/

theorem processFile_of_no_file (env : BulkEnv) (st : BulkState) (h : st.file = none) :
    processFile env st = st ∧ processFileCalls env st = [] := by
  simp [processFile, processFileCalls, h]

theorem afterLastDot_of_no_dot (l segment : List Char) (h : '.' ∉ l) :
    afterLastDot l segment = segment.reverse ++ l := by
  induction l generalizing segment with
  | nil => simp [afterLastDot]
  | cons c rest ih =>
    have hc : c ≠ '.' := fun hc => h (by simp [hc])
    have hrest : '.' ∉ rest := fun hr => h (List.mem_cons_of_mem _ hr)
    simp [afterLastDot, hc, ih _ hrest]

theorem afterLastDot_append (stem ext segment : List Char) (h : '.' ∉ ext) :
    afterLastDot (stem ++ '.' :: ext) segment = ext := by
  induction stem generalizing segment with
  | nil => simp [afterLastDot, afterLastDot_of_no_dot ext [] h]
  | cons c rest ih =>
    by_cases hc : c = '.'
    · simp [afterLastDot, hc, ih]
    · simp [afterLastDot, hc, ih]

theorem exists_last_dot (l : List Char) :
    '.' ∉ l ∨ ∃ stem ext, l = stem ++ '.' :: ext ∧ '.' ∉ ext := by
  induction l with
  | nil => left; simp
  | cons c rest ih =>
    rcases ih with hno | ⟨stem, ext, hl, hext⟩
    · by_cases hc : c = '.'
      · right
        exact ⟨[], rest, by simp [hc], hno⟩
      · left
        intro hmem
        rcases List.mem_cons.mp hmem with h | h
        · exact hc h.symm
        · exact hno h
    · right
      exact ⟨c :: stem, ext, by simp [hl], hext⟩

theorem splitPop_iff (name : String) (p : String → Prop) :
    p (splitPop name) ↔
      ∃ ext : List Char, '.' ∉ ext ∧
        (name.data = ext ∨ ∃ stem, name.data = stem ++ '.' :: ext) ∧ p (String.mk ext) := by
  constructor
  · intro hp
    rcases exists_last_dot name.data with hno | ⟨stem, ext, hl, hext⟩
    · refine ⟨name.data, hno, Or.inl rfl, ?_⟩
      have : splitPop name = String.mk name.data := by
        simp [splitPop, afterLastDot_of_no_dot name.data [] hno]
      rw [← this]
      exact hp
    · refine ⟨ext, hext, Or.inr ⟨stem, hl⟩, ?_⟩
      have : splitPop name = String.mk ext := by
        simp [splitPop, hl, afterLastDot_append stem ext [] hext]
      rw [← this]
      exact hp
  · rintro ⟨ext, hext, hshape, hp⟩
    have : splitPop name = String.mk ext := by
      rcases hshape with hl | ⟨stem, hl⟩
      · simp [splitPop, hl, afterLastDot_of_no_dot ext [] hext]
      · simp [splitPop, hl, afterLastDot_append stem ext [] hext]
    rw [this]
    exact hp

/-- C23, as the claim states it, fails: a file whose name has no "." has no extension, yet
`handleFileChange` keeps the files named "csv" and "PDF", the whole name standing for the
extension. -/
theorem handleFileChange_keeps_name_without_extension :
    '.' ∉ bareCsvFile.name.data ∧
    (handleFileChange (some bareCsvFile) selectedState).file.map (fun f => f.name)
      = some "csv" ∧
    (handleFileChange (some bareCsvFile) selectedState).error = none ∧
    (handleFileChange (some { name := "PDF" }) selectedState).file.map (fun f => f.name)
      = some "PDF" := by
  refine ⟨by decide, by decide, by decide, by decide⟩

/-- C23 (amended): `handleFileChange` keeps a selected file if and only if the text after
the last "." of its name, or its whole name when the name has no ".", is "pdf" or "csv"
up to the case of its letters. A file that is kept becomes the selected file, error,
results and saved flag being reset. For any other file it sets the fixed error naming PDF
and CSV and clears the selected file, leaving the rest of the state as it was;
`processFile` then returns at once, issuing no upload, extraction or classification call
and changing nothing. -/
theorem handleFileChange_accepts_pdf_csv (selectedFile : File) (st : BulkState) :
    ((handleFileChange (some selectedFile) st).file = some selectedFile ↔
      ∃ ext : List Char, '.' ∉ ext ∧
        (selectedFile.name.data = ext ∨ ∃ stem, selectedFile.name.data = stem ++ '.' :: ext) ∧
        (toLowerCase (String.mk ext) = "pdf" ∨ toLowerCase (String.mk ext) = "csv")) ∧
    ((handleFileChange (some selectedFile) st).file = some selectedFile →
      handleFileChange (some selectedFile) st =
        { st with file := some selectedFile, error := none, results := none, saved := false }) ∧
    ((handleFileChange (some selectedFile) st).file ≠ some selectedFile →
      handleFileChange (some selectedFile) st =
        { st with
          error := some
            "Please upload a PDF or CSV file. Excel files are not supported - please convert to CSV first."
          file := none } ∧
      ∀ env : BulkEnv,
        processFile env (handleFileChange (some selectedFile) st) =
          handleFileChange (some selectedFile) st ∧
        processFileCalls env (handleFileChange (some selectedFile) st) = []) := by
  have hmem : toLowerCase (splitPop selectedFile.name) ∈ ["pdf", "csv"] ↔
      (toLowerCase (splitPop selectedFile.name) = "pdf" ∨
        toLowerCase (splitPop selectedFile.name) = "csv") := by
    simp
  have hacc : (toLowerCase (splitPop selectedFile.name) = "pdf" ∨
        toLowerCase (splitPop selectedFile.name) = "csv") →
      handleFileChange (some selectedFile) st =
        { st with file := some selectedFile, error := none, results := none, saved := false } := by
    intro h
    have h2 := hmem.mpr h
    simp only [handleFileChange, h2, not_true_eq_false, if_false]
  have hrej : ¬ (toLowerCase (splitPop selectedFile.name) = "pdf" ∨
        toLowerCase (splitPop selectedFile.name) = "csv") →
      handleFileChange (some selectedFile) st =
        { st with
          error := some
            "Please upload a PDF or CSV file. Excel files are not supported - please convert to CSV first."
          file := none } := by
    intro h
    have h2 : ¬ toLowerCase (splitPop selectedFile.name) ∈ ["pdf", "csv"] :=
      fun hm => h (hmem.mp hm)
    simp only [handleFileChange, h2, not_false_eq_true, if_true]
    rfl
  have hkept : (handleFileChange (some selectedFile) st).file = some selectedFile ↔
      (toLowerCase (splitPop selectedFile.name) = "pdf" ∨
        toLowerCase (splitPop selectedFile.name) = "csv") := by
    constructor
    · intro hfile
      by_contra hno
      rw [hrej hno] at hfile
      exact Option.noConfusion hfile
    · intro h
      rw [hacc h]
  refine ⟨?_, ?_, ?_⟩
  · rw [hkept]
    exact splitPop_iff selectedFile.name
      (fun extension => toLowerCase extension = "pdf" ∨ toLowerCase extension = "csv")
  · intro hfile
    exact hacc (hkept.mp hfile)
  · intro hfile
    have hno : ¬ (toLowerCase (splitPop selectedFile.name) = "pdf" ∨
        toLowerCase (splitPop selectedFile.name) = "csv") := fun h => hfile (hkept.mpr h)
    refine ⟨hrej hno, fun env => ?_⟩
    apply processFile_of_no_file
    rw [hrej hno]

/-- Witness of C23 (amended): "Feedback.Q1.CSV" is kept, its text after the last "." being
"CSV"; "feedback.xlsx" is refused, and `processFile` then issues no call. -/
theorem handleFileChange_accepts_pdf_csv_witness :
    (handleFileChange (some csvFile) selectedState).file = some csvFile ∧
    (handleFileChange (some xlsxFile) selectedState).file.map (fun f => f.name) = none ∧
    (handleFileChange (some xlsxFile) selectedState).error =
      some
        "Please upload a PDF or CSV file. Excel files are not supported - please convert to CSV first." ∧
    ∀ env : BulkEnv,
      processFileCalls env (handleFileChange (some xlsxFile) selectedState) = [] :=
  ⟨(handleFileChange_accepts_pdf_csv csvFile selectedState).1.mpr
      ⟨"CSV".data, by decide, Or.inr ⟨"Feedback.Q1".data, by decide⟩, Or.inr (by decide)⟩,
    by decide, by decide,
    fun env =>
      (((handleFileChange_accepts_pdf_csv xlsxFile selectedState).2.2
        (fun h => absurd (congrArg (Option.map (fun f => f.name)) h) (by decide))).2 env).2⟩

theorem processFileCalls_of_reaches (env : BulkEnv) (st : BulkState)
    (feedbackEntries : List Entry) (h : ReachesClassification env st feedbackEntries) :
    ∃ file file_url,
      processFileCalls env st =
        .upload file :: .extract file_url ::
          mapIdx (fun i entry => .classify i (bulkAnalysisPrompt entry.feedback_text)) 0
            feedbackEntries := by
  obtain ⟨file, url, x, hfile, hup, hex, hstatus, hout, hne⟩ := h
  have hlen : feedbackEntries.length ≠ 0 := fun h0 => hne (List.length_eq_zero.mp h0)
  exact ⟨file, url, by simp [processFileCalls, hfile, hup, hex, hstatus, hout, hlen]⟩

/-- C24: when the extraction resolves with status "error", or with another status and no
entry, `processFile` halts: it sets an error (for status "error" the service's details
when given and not empty, otherwise the default text; for zero entries the distinct "No
feedback entries found" text), issues no classifier call after the upload and the
extraction, leaves `results` as it was and ends with `isProcessing` false. -/
theorem processFile_halts_on_extraction_outcome (env : BulkEnv) (st : BulkState) (file : File)
    (file_url : String) (extractionResult : ExtractionResult)
    (hfile : st.file = some file) (hup : env.UploadFile file = .ok file_url)
    (hex : env.ExtractDataFromUploadedFile file_url = .ok extractionResult)
    (hhalt : extractionResult.status = "error" ∨ extractionResult.output.getD [] = []) :
    (processFile env st).results = st.results ∧
    (processFile env st).isProcessing = false ∧
    processFileCalls env st = [.upload file, .extract file_url] ∧
    (extractionResult.status = "error" →
      (processFile env st).error = some (orDefault extractionResult.details
        "Failed to extract data from file. Please ensure your file has the correct format.") ∧
      (∀ details, extractionResult.details = some details → details ≠ "" →
        (processFile env st).error = some details) ∧
      (extractionResult.details = none ∨ extractionResult.details = some "" →
        (processFile env st).error = some
          "Failed to extract data from file. Please ensure your file has the correct format.")) ∧
    (extractionResult.status ≠ "error" →
      (processFile env st).error =
        some "No feedback entries found in the file. Please check your file format.") := by
  by_cases hs : extractionResult.status = "error"
  · have hp : processFile env st =
        { st with
          error := some (orDefault extractionResult.details
            "Failed to extract data from file. Please ensure your file has the correct format.")
          isProcessing := false } := by
      simp [processFile, processFileTry, hfile, hup, hex, hs, bind, Except.bind, pure,
        Except.pure]
    refine ⟨by rw [hp], by rw [hp], ?_, ?_, fun hne => absurd hs hne⟩
    · simp [processFileCalls, hfile, hup, hex, hs]
    · intro _
      refine ⟨by rw [hp], ?_, ?_⟩
      · intro details hd hne
        rw [hp, hd]
        simp [orDefault, hne]
      · intro hd
        rw [hp]
        rcases hd with hd | hd <;> simp [orDefault, hd]
  · have hempty : extractionResult.output.getD [] = [] := by
      rcases hhalt with h | h
      · exact absurd h hs
      · exact h
    have hp : processFile env st =
        { st with
          error := some "No feedback entries found in the file. Please check your file format."
          isProcessing := false } := by
      simp [processFile, processFileTry, hfile, hup, hex, hs, hempty, bind, Except.bind, pure,
        Except.pure]
    refine ⟨by rw [hp], by rw [hp], ?_, fun h => absurd h hs, fun _ => by rw [hp]⟩
    simp [processFileCalls, hfile, hup, hex, hs, hempty]

/-- Witness of C24: the extraction answers with status "error" and the details "Bad
header row"; the classifier, which would answer, is not called. -/
theorem processFile_halts_on_extraction_outcome_witness :
    (processFile
      (bulkEnvExtract { status := "error", output := none, details := some "Bad header row" }
        sentimentOnlyLLM) selectedState).error = some "Bad header row" ∧
    (processFile
      (bulkEnvExtract { status := "success", output := some [], details := none }
        sentimentOnlyLLM) selectedState).error =
      some "No feedback entries found in the file. Please check your file format." ∧
    (processFile
      (bulkEnvExtract { status := "error", output := none, details := some "Bad header row" }
        sentimentOnlyLLM) selectedState).results = selectedState.results ∧
    (processFile
      (bulkEnvExtract { status := "error", output := none, details := some "Bad header row" }
        sentimentOnlyLLM) selectedState).isProcessing = false ∧
    processFileCalls
      (bulkEnvExtract { status := "error", output := none, details := some "Bad header row" }
        sentimentOnlyLLM) selectedState =
      [.upload { name := "feedback.csv" }, .extract "https://files.example/feedback.csv"] :=
  ⟨by decide, by decide,
    (processFile_halts_on_extraction_outcome
      (bulkEnvExtract { status := "error", output := none, details := some "Bad header row" }
        sentimentOnlyLLM) selectedState { name := "feedback.csv" }
      "https://files.example/feedback.csv"
      { status := "error", output := none, details := some "Bad header row" } rfl rfl rfl
      (Or.inl rfl)).1,
    (processFile_halts_on_extraction_outcome
      (bulkEnvExtract { status := "error", output := none, details := some "Bad header row" }
        sentimentOnlyLLM) selectedState { name := "feedback.csv" }
      "https://files.example/feedback.csv"
      { status := "error", output := none, details := some "Bad header row" } rfl rfl rfl
      (Or.inl rfl)).2.1,
    (processFile_halts_on_extraction_outcome
      (bulkEnvExtract { status := "error", output := none, details := some "Bad header row" }
        sentimentOnlyLLM) selectedState { name := "feedback.csv" }
      "https://files.example/feedback.csv"
      { status := "error", output := none, details := some "Bad header row" } rfl rfl rfl
      (Or.inl rfl)).2.2.1⟩

/-- C25: when `Feedback.bulkCreate` throws in `saveToDatabase`, `results` (total, grouped,
all) is left as it was, `saved` keeps its value (it stays false), the error "Failed to
save feedback to database" is set and `isSaving` ends false, so a further call hands the
same records to `bulkCreate`; on every call the argument of `bulkCreate` is exactly
`results.all`. -/
theorem saveToDatabase_failure_keeps_results
    (bulkCreate : List FeedbackData → Except String Unit) (st : BulkState) (results : Results)
    (err : String) (hres : st.results = some results)
    (hfail : bulkCreate results.all = .error err) :
    (saveToDatabase bulkCreate st).results = some results ∧
    (saveToDatabase bulkCreate st).saved = st.saved ∧
    (st.saved = false → (saveToDatabase bulkCreate st).saved = false) ∧
    (saveToDatabase bulkCreate st).error = some "Failed to save feedback to database" ∧
    (saveToDatabase bulkCreate st).isSaving = false ∧
    (saveToDatabase bulkCreate st).file = st.file ∧
    saveToDatabaseCalls st = [results.all] ∧
    saveToDatabaseCalls (saveToDatabase bulkCreate st) = [results.all] ∧
    (∀ st2 : BulkState,
      (∀ results2, st2.results = some results2 → saveToDatabaseCalls st2 = [results2.all]) ∧
      (st2.results = none → saveToDatabaseCalls st2 = [])) := by
  have hp : saveToDatabase bulkCreate st =
      { st with error := some "Failed to save feedback to database", isSaving := false } := by
    simp [saveToDatabase, hres, hfail]
  refine ⟨by rw [hp]; exact hres, by rw [hp], fun h => by rw [hp]; exact h, by rw [hp],
    by rw [hp], by rw [hp], ?_, ?_, ?_⟩
  · simp [saveToDatabaseCalls, hres]
  · rw [hp]
    simp [saveToDatabaseCalls, hres]
  · intro st2
    constructor
    · intro results2 h2
      simp [saveToDatabaseCalls, h2]
    · intro h2
      simp [saveToDatabaseCalls, h2]

/-- Witness of C25: saving three classified records fails. -/
theorem saveToDatabase_failure_keeps_results_witness :
    (saveToDatabase (fun _ => .error "Network Error") classifiedState).results.map
      (fun r => r.total) = some 3 ∧
    (saveToDatabase (fun _ => .error "Network Error") classifiedState).saved = false ∧
    (saveToDatabase (fun _ => .error "Network Error") classifiedState).error =
      some "Failed to save feedback to database" :=
  ⟨by decide,
    (saveToDatabase_failure_keeps_results (fun _ => .error "Network Error") classifiedState
      (mkResults [recordOf secondFails 0 crashEntry, fallbackRecord exportEntry,
        recordOf secondFails 2 praiseEntry]) "Network Error" rfl rfl).2.2.1 rfl,
    (saveToDatabase_failure_keeps_results (fun _ => .error "Network Error") classifiedState
      (mkResults [recordOf secondFails 0 crashEntry, fallbackRecord exportEntry,
        recordOf secondFails 2 praiseEntry]) "Network Error" rfl rfl).2.2.2.1⟩

/-! ## Report prompt and statistics -/

theorem orElse_cases (v d : JSVal) :
    (v.truthy = true → v.orElse d = v) ∧ (v.truthy = false → v.orElse d = d) := by
  constructor <;> intro h <;> simp [JSVal.orElse, h]

theorem generateReport_narrativeCalls (env : ReportEnv) (st : ReportState)
    (allFeedback : List FeedbackRecord) (hlist : env.FeedbackList = .ok allFeedback)
    (hne : feedbackInRange st.dateRange allFeedback ≠ []) :
    (generateReport env st).narrativeCalls = st.narrativeCalls ++
      [reportPrompt st.dateRange (feedbackInRange st.dateRange allFeedback)] := by
  cases hllm : env.InvokeLLM
      (reportPrompt st.dateRange (feedbackInRange st.dateRange allFeedback)) with
  | error err => rw [generateReport_of_narrative_throw env st allFeedback err hlist hne hllm]
  | ok reportMarkdown =>
    obtain ⟨_, _, _, hcalls, _⟩ :=
      generateReport_of_narrative env st allFeedback reportMarkdown hlist hne hllm
    exact hcalls

/-- C26, as the claim states it, fails: a record whose `customer_name` is present and is
the empty string (what a submission without a name stores) gets the customer "Anonymous"
in the summary list of the prompt. -/
theorem feedbackSummary_replaces_empty_name :
    anonymousRecord.customer_name.strictEqStr "" = true ∧
    (feedbackSummary [anonymousRecord]).map
      (fun item => item.customer.strictEqStr "Anonymous") = [true] ∧
    (generateReport (reportEnvOf [anonymousRecord] (.ok (.str "# Weekly")))
        (freshReportState sampleWeek)).narrativeCalls.map
      (fun prompt => prompt.feedbackSummary.map
        (fun item => item.customer.strictEqStr "Anonymous")) = [[true]] := by
  refine ⟨by decide, by decide, by decide⟩

/-- C26 (amended): for every non-empty filtered list, the summary list of the prompt handed
to the narrative call has exactly one item per filtered record, in the same order, with
text equal to the record's `feedback_text`, customer equal to `customer_name` when that is
truthy and "Anonymous" when it is absent or empty, and each of urgency, impact, category
and sentiment equal to the record's value when truthy and "unknown" when absent or
empty. -/
theorem reportPrompt_summary_items (env : ReportEnv) (st : ReportState)
    (allFeedback : List FeedbackRecord) (hlist : env.FeedbackList = .ok allFeedback)
    (hne : feedbackInRange st.dateRange allFeedback ≠ []) :
    ∃ prompt, (generateReport env st).narrativeCalls = st.narrativeCalls ++ [prompt] ∧
      prompt.count = (feedbackInRange st.dateRange allFeedback).length ∧
      prompt.feedbackSummary.length = (feedbackInRange st.dateRange allFeedback).length ∧
      (∀ (i : Nat) (f : FeedbackRecord),
        (feedbackInRange st.dateRange allFeedback)[i]? = some f →
        ∃ item : SummaryItem, prompt.feedbackSummary[i]? = some item ∧
          item.text = f.feedback_text ∧
          item.customer = f.customer_name.orElse (.str "Anonymous") ∧
          item.urgency = f.urgency.orElse (.str "unknown") ∧
          item.impact = f.impact.orElse (.str "unknown") ∧
          item.category = f.category.orElse (.str "unknown") ∧
          item.sentiment = f.sentiment.orElse (.str "unknown") ∧
          item.date = f.created_date) ∧
      (∀ v d : JSVal,
        (v.truthy = true → v.orElse d = v) ∧ (v.truthy = false → v.orElse d = d)) ∧
      (JSVal.undefined.truthy = false ∧ JSVal.null.truthy = false ∧
        (JSVal.str "").truthy = false ∧
        ∀ s : String, s ≠ "" → (JSVal.str s).truthy = true) := by
  refine ⟨reportPrompt st.dateRange (feedbackInRange st.dateRange allFeedback),
    generateReport_narrativeCalls env st allFeedback hlist hne, rfl, ?_, ?_, orElse_cases,
    rfl, rfl, rfl, fun s hs => (str_key s hs).1⟩
  · simp [reportPrompt, feedbackSummary]
  · intro i f hi
    refine ⟨{ text := f.feedback_text
              customer := f.customer_name.orElse (.str "Anonymous")
              urgency := f.urgency.orElse (.str "unknown")
              impact := f.impact.orElse (.str "unknown")
              category := f.category.orElse (.str "unknown")
              sentiment := f.sentiment.orElse (.str "unknown")
              date := f.created_date }, ?_, rfl, rfl, rfl, rfl, rfl, rfl, rfl⟩
    simp [reportPrompt, feedbackSummary, hi]

/-- Witness of C26 (amended): the prompt for five records carries five items. -/
theorem reportPrompt_summary_items_witness :
    (generateReport (reportEnvOf fiveRecords (.ok (.str "# Weekly")))
        (freshReportState sampleWeek)).narrativeCalls.map
      (fun prompt => (prompt.count, prompt.feedbackSummary.length)) = [(5, 5)] ∧
    ∃ prompt,
      (generateReport (reportEnvOf fiveRecords (.ok (.str "# Weekly")))
        (freshReportState sampleWeek)).narrativeCalls
        = (freshReportState sampleWeek).narrativeCalls ++ [prompt] ∧
      prompt.count = (feedbackInRange (freshReportState sampleWeek).dateRange fiveRecords).length :=
  ⟨by decide, by
    obtain ⟨prompt, h1, h2, _⟩ :=
      reportPrompt_summary_items (reportEnvOf fiveRecords (.ok (.str "# Weekly")))
        (freshReportState sampleWeek) fiveRecords rfl
        (fun h => absurd (congrArg List.length h) (by decide))
    exact ⟨prompt, h1, h2⟩⟩

theorem key_test_eq_strictEq (v : JSVal) (lit : String) (hlit : lit ≠ "")
    (hv : UnsetOr IsText v) :
    (v.truthy && decide (v.toPropertyKey = lit)) = v.strictEqStr lit := by
  rcases hv with rfl | rfl | ⟨s, rfl⟩
  · rfl
  · rfl
  · by_cases hs : s = lit
    · subst hs
      simp [JSVal.truthy, JSVal.toPropertyKey, JSVal.strictEqStr, hlit]
    · simp [JSVal.truthy, JSVal.toPropertyKey, JSVal.strictEqStr, hs]

theorem keyCount_eq_filter (field : FeedbackRecord → JSVal) (lit : String) (hlit : lit ≠ "")
    (feedback : List FeedbackRecord) (h : ∀ f ∈ feedback, UnsetOr IsText (field f)) :
    keyCount field lit feedback =
      (feedback.filter (fun f => (field f).strictEqStr lit)).length := by
  unfold keyCount
  congr 1
  apply List.filter_congr
  intro f hf
  exact key_test_eq_strictEq (field f) lit hlit (h f hf)

/-- C27: on every collection, the report's `highUrgency` is `getUrgencyCount` of the
Dashboard; and on every collection whose sentiments are unset or strings, the report's
sentiment summary, computed by three filter counts, is the result of the single-pass tally
`getSentimentCounts`. -/
theorem reportStats_agrees_with_dashboard (feedback : List FeedbackRecord) :
    (reportStats feedback).highUrgency = getUrgencyCount feedback ∧
    ((∀ f ∈ feedback, UnsetOr IsText f.sentiment) →
      (reportStats feedback).sentiment = getSentimentCounts feedback ∧
      (reportStats feedback).sentiment.positive = (getSentimentCounts feedback).positive ∧
      (reportStats feedback).sentiment.neutral = (getSentimentCounts feedback).neutral ∧
      (reportStats feedback).sentiment.negative = (getSentimentCounts feedback).negative) := by
  refine ⟨rfl, fun h => ?_⟩
  have hp := keyCount_eq_filter (fun f => f.sentiment) "positive" (by decide) feedback h
  have hn := keyCount_eq_filter (fun f => f.sentiment) "neutral" (by decide) feedback h
  have hg := keyCount_eq_filter (fun f => f.sentiment) "negative" (by decide) feedback h
  have heq : (reportStats feedback).sentiment = getSentimentCounts feedback := by
    simp only [getSentimentCounts, tallySentiment_eq, reportStats, hp, hn, hg]
  exact ⟨heq, by rw [heq], by rw [heq], by rw [heq]⟩

/-- Witness of C27: five classified records. -/
theorem reportStats_agrees_with_dashboard_witness :
    (reportStats fiveRecords).sentiment = { positive := 3, neutral := 1, negative := 1 } ∧
    getSentimentCounts fiveRecords = { positive := 3, neutral := 1, negative := 1 } ∧
    (reportStats fiveRecords).highUrgency = getUrgencyCount fiveRecords ∧
    (reportStats fiveRecords).sentiment = getSentimentCounts fiveRecords :=
  ⟨by decide, by decide, (reportStats_agrees_with_dashboard fiveRecords).1,
    ((reportStats_agrees_with_dashboard fiveRecords).2 (fun f hf =>
      Or.inr (Or.inr (by
        rcases (fiveRecords_classified f hf).2.2 with h | h | h <;> exact ⟨_, h⟩)))).1⟩

theorem three_filters {α : Type} (field : α → JSVal) (a b c : String) (hab : a ≠ b)
    (hac : a ≠ c) (hbc : b ≠ c) (l : List α) :
    (l.filter (fun x => (field x).strictEqStr a)).length +
        (l.filter (fun x => (field x).strictEqStr b)).length +
        (l.filter (fun x => (field x).strictEqStr c)).length ≤ l.length ∧
    ((l.filter (fun x => (field x).strictEqStr a)).length +
        (l.filter (fun x => (field x).strictEqStr b)).length +
        (l.filter (fun x => (field x).strictEqStr c)).length = l.length ↔
      ∀ x ∈ l, field x = .str a ∨ field x = .str b ∨ field x = .str c) := by
  induction l with
  | nil => simp
  | cons x xs ih =>
    obtain ⟨ih1, ih2⟩ := ih
    have flags :
        ((field x).strictEqStr a = true ∧ (field x).strictEqStr b = false ∧
          (field x).strictEqStr c = false) ∨
        ((field x).strictEqStr a = false ∧ (field x).strictEqStr b = true ∧
          (field x).strictEqStr c = false) ∨
        ((field x).strictEqStr a = false ∧ (field x).strictEqStr b = false ∧
          (field x).strictEqStr c = true) ∨
        ((field x).strictEqStr a = false ∧ (field x).strictEqStr b = false ∧
          (field x).strictEqStr c = false) := by
      have ne : ∀ p q : String, p ≠ q → (field x).strictEqStr p = true →
          (field x).strictEqStr q = false := by
        intro p q hpq hp
        rw [strictEqStr_iff] at hp
        rw [hp]
        simp [JSVal.strictEqStr, hpq]
      cases ha : (field x).strictEqStr a
      · cases hb : (field x).strictEqStr b
        · cases hc : (field x).strictEqStr c
          · exact Or.inr (Or.inr (Or.inr ⟨rfl, rfl, rfl⟩))
          · exact Or.inr (Or.inr (Or.inl ⟨rfl, rfl, rfl⟩))
        · exact Or.inr (Or.inl ⟨rfl, rfl, ne b c hbc hb⟩)
      · exact Or.inl ⟨rfl, ne a b hab ha, ne a c hac ha⟩
    have mem : (∀ y ∈ x :: xs, field y = .str a ∨ field y = .str b ∨ field y = .str c) ↔
        (field x = .str a ∨ field x = .str b ∨ field x = .str c) ∧
          ∀ y ∈ xs, field y = .str a ∨ field y = .str b ∨ field y = .str c := by
      simp
    rw [mem]
    rcases flags with ⟨ha, hb, hc⟩ | ⟨ha, hb, hc⟩ | ⟨ha, hb, hc⟩ | ⟨ha, hb, hc⟩
    · have hx : field x = .str a := (strictEqStr_iff _ _).mp ha
      simp only [List.filter_cons, ha, hb, hc, List.length_cons, if_true]
      refine ⟨by simp; omega, ?_⟩
      constructor
      · intro h
        exact ⟨Or.inl hx, ih2.mp (by simp at h; omega)⟩
      · rintro ⟨_, h⟩
        have := ih2.mpr h
        simp; omega
    · have hx : field x = .str b := (strictEqStr_iff _ _).mp hb
      simp only [List.filter_cons, ha, hb, hc, List.length_cons, if_true]
      refine ⟨by simp; omega, ?_⟩
      constructor
      · intro h
        exact ⟨Or.inr (Or.inl hx), ih2.mp (by simp at h; omega)⟩
      · rintro ⟨_, h⟩
        have := ih2.mpr h
        simp; omega
    · have hx : field x = .str c := (strictEqStr_iff _ _).mp hc
      simp only [List.filter_cons, ha, hb, hc, List.length_cons, if_true]
      refine ⟨by simp; omega, ?_⟩
      constructor
      · intro h
        exact ⟨Or.inr (Or.inr hx), ih2.mp (by simp at h; omega)⟩
      · rintro ⟨_, h⟩
        have := ih2.mpr h
        simp; omega
    · simp only [List.filter_cons, ha, hb, hc, List.length_cons]
      refine ⟨by simp; omega, ?_⟩
      constructor
      · intro h
        simp at h
        omega
      · rintro ⟨hx, _⟩
        exfalso
        rcases hx with hx | hx | hx
        · rw [(strictEqStr_iff _ _).mpr hx] at ha; exact Bool.noConfusion ha
        · rw [(strictEqStr_iff _ _).mpr hx] at hb; exact Bool.noConfusion hb
        · rw [(strictEqStr_iff _ _).mpr hx] at hc; exact Bool.noConfusion hc

/-- C28: for every filtered list, the computed stats satisfy
positive + neutral + negative <= total and highUrgency <= total, and the sentiment sum
equals total exactly when every record's sentiment is "positive", "neutral" or
"negative". -/
theorem reportStats_bounds (feedbackInRange : List FeedbackRecord) :
    (reportStats feedbackInRange).sentiment.positive +
        (reportStats feedbackInRange).sentiment.neutral +
        (reportStats feedbackInRange).sentiment.negative ≤ (reportStats feedbackInRange).total ∧
    (reportStats feedbackInRange).highUrgency ≤ (reportStats feedbackInRange).total ∧
    ((reportStats feedbackInRange).sentiment.positive +
        (reportStats feedbackInRange).sentiment.neutral +
        (reportStats feedbackInRange).sentiment.negative = (reportStats feedbackInRange).total ↔
      ∀ f ∈ feedbackInRange, IsSentiment f.sentiment) := by
  have h := three_filters (fun f : FeedbackRecord => f.sentiment) "positive" "neutral"
    "negative" (by decide) (by decide) (by decide) feedbackInRange
  refine ⟨h.1, ?_, h.2⟩
  exact List.length_filter_le _ _

/-- Witness of C28: five classified records, and one record without sentiment. -/
theorem reportStats_bounds_witness :
    ((reportStats fiveRecords).sentiment.positive + (reportStats fiveRecords).sentiment.neutral +
        (reportStats fiveRecords).sentiment.negative, (reportStats fiveRecords).total,
      (reportStats fiveRecords).highUrgency) = (5, 5, 2) ∧
    (reportStats fiveRecords).sentiment.positive + (reportStats fiveRecords).sentiment.neutral +
        (reportStats fiveRecords).sentiment.negative = (reportStats fiveRecords).total :=
  ⟨by decide,
    (reportStats_bounds fiveRecords).2.2.mpr (fun f hf => (fiveRecords_classified f hf).2.2)⟩

theorem feedbackInRange_of_reversed (dateRange : DateRange) (allFeedback : List FeedbackRecord)
    (h : dateRange.start > dateRange.end_) : feedbackInRange dateRange allFeedback = [] := by
  unfold feedbackInRange
  rw [List.filter_eq_nil_iff]
  intro f _
  rw [Bool.not_eq_true, inDateRange_eq_false_iff]
  unfold msPerDay
  omega

/-- C29: when the start date of the window is later than its end date, the filtered list
is empty for every collection, and `generateReport` sets the "No Feedback Available"
placeholder with zero stats, without a narrative call, a `Report.create` call or a
persisted Report. -/
theorem generateReport_reversed_window (env : ReportEnv) (st : ReportState)
    (allFeedback : List FeedbackRecord) (hlist : env.FeedbackList = .ok allFeedback)
    (hrev : st.dateRange.start > st.dateRange.end_) :
    feedbackInRange st.dateRange allFeedback = [] ∧
    (generateReport env st).generatedReport = some placeholderReport ∧
    placeholderReport.markdown =
      .str "# No Feedback Available\n\nNo feedback entries found for the selected date range." ∧
    placeholderReport.stats =
      { total := 0, highUrgency := 0,
        sentiment := { positive := 0, neutral := 0, negative := 0 } } ∧
    (generateReport env st).narrativeCalls = st.narrativeCalls ∧
    (generateReport env st).createCalls = st.createCalls ∧
    (generateReport env st).persisted = st.persisted := by
  have hempty := feedbackInRange_of_reversed st.dateRange allFeedback hrev
  rw [generateReport_of_empty env st allFeedback hlist hempty]
  exact ⟨hempty, rfl, rfl, rfl, rfl, rfl, rfl⟩

/-- Witness of C29: the window 2024-01-20 .. 2024-01-14 over five records of that week. -/
theorem generateReport_reversed_window_witness :
    (freshReportState { start := 19742, end_ := 19736 }).dateRange.start >
      (freshReportState { start := 19742, end_ := 19736 }).dateRange.end_ ∧
    feedbackInRange (freshReportState { start := 19742, end_ := 19736 }).dateRange fiveRecords
      = [] ∧
    (generateReport (reportEnvOf fiveRecords (.ok (.str "# Weekly")))
      (freshReportState { start := 19742, end_ := 19736 })).generatedReport
      = some placeholderReport ∧
    (generateReport (reportEnvOf fiveRecords (.ok (.str "# Weekly")))
      (freshReportState { start := 19742, end_ := 19736 })).narrativeCalls
      = (freshReportState { start := 19742, end_ := 19736 }).narrativeCalls :=
  ⟨by decide,
    (generateReport_reversed_window (reportEnvOf fiveRecords (.ok (.str "# Weekly")))
      (freshReportState { start := 19742, end_ := 19736 }) fiveRecords rfl (by decide)).1,
    (generateReport_reversed_window (reportEnvOf fiveRecords (.ok (.str "# Weekly")))
      (freshReportState { start := 19742, end_ := 19736 }) fiveRecords rfl (by decide)).2.1,
    (generateReport_reversed_window (reportEnvOf fiveRecords (.ok (.str "# Weekly")))
      (freshReportState { start := 19742, end_ := 19736 }) fiveRecords rfl
      (by decide)).2.2.2.2.1⟩

/-! ## Busy flags -/

theorem processFile_isProcessing (env : BulkEnv) (st : BulkState) (file : File)
    (hfile : st.file = some file) : (processFile env st).isProcessing = false := by
  unfold processFile
  rw [hfile]
  simp only
  cases hup : env.UploadFile file with
  | error e => simp [processFileTry, hup, bind, Except.bind]
  | ok url =>
    cases hex : env.ExtractDataFromUploadedFile url with
    | error e => simp [processFileTry, hup, hex, bind, Except.bind]
    | ok x =>
      by_cases hs : x.status = "error"
      · simp [processFileTry, hup, hex, hs, bind, Except.bind, pure, Except.pure]
      · by_cases hl : (x.output.getD []).length = 0
        · simp [processFileTry, hup, hex, hs, hl, bind, Except.bind, pure, Except.pure]
        · simp [processFileTry, hup, hex, hs, hl, classifyBatch_eq, bind, Except.bind, pure,
            Except.pure]

theorem generateReport_isGenerating (env : ReportEnv) (st : ReportState) :
    (generateReport env st).isGenerating = false := by
  cases hlist : env.FeedbackList with
  | error err => rw [generateReport_of_list_throw env st err hlist]
  | ok allFeedback =>
    by_cases hne : feedbackInRange st.dateRange allFeedback = []
    · rw [generateReport_of_empty env st allFeedback hlist hne]
    · cases hllm : env.InvokeLLM
          (reportPrompt st.dateRange (feedbackInRange st.dateRange allFeedback)) with
      | error err =>
        rw [generateReport_of_narrative_throw env st allFeedback err hlist hne hllm]
      | ok reportMarkdown =>
        obtain ⟨_, _, _, _, hg, _⟩ :=
          generateReport_of_narrative env st allFeedback reportMarkdown hlist hne hllm
        exact hg

theorem handleSubmit_isProcessing (env : SubmitEnv) (st : SubmitState) :
    (handleSubmit env st).isProcessing = false := by
  simp [handleSubmit]

/-- C30: every started run of `processFile` (a file is selected), of `generateReport` and
of `handleSubmit` ends with its busy flag (`isProcessing`, `isGenerating`) false, whatever
the external calls do: on success, on an early return and on a caught failure. A call of
`processFile` without a selected file returns before the flag is set and leaves the state
as it is. -/
theorem handlers_end_not_busy :
    (∀ (env : BulkEnv) (st : BulkState), st.file ≠ none →
      (processFile env st).isProcessing = false) ∧
    (∀ (env : BulkEnv) (st : BulkState), st.file = none → processFile env st = st) ∧
    (∀ (env : ReportEnv) (st : ReportState), (generateReport env st).isGenerating = false) ∧
    (∀ (env : SubmitEnv) (st : SubmitState), (handleSubmit env st).isProcessing = false) := by
  refine ⟨?_, ?_, generateReport_isGenerating, handleSubmit_isProcessing⟩
  · intro env st hfile
    cases hf : st.file with
    | none => exact absurd hf hfile
    | some file => exact processFile_isProcessing env st file hf
  · intro env st hfile
    exact (processFile_of_no_file env st hfile).1

/-- Witness of C30: runs that fail (upload throws, narrative call throws, classifier
throws) end with the flag false. -/
theorem handlers_end_not_busy_witness :
    (processFile
      { UploadFile := fun _ => .error "Network Error"
        ExtractDataFromUploadedFile := fun _ => .error "unreachable"
        InvokeLLM := sentimentOnlyLLM } selectedState).isProcessing = false ∧
    (generateReport (reportEnvOf fiveRecords (.error "Network Error"))
      (freshReportState sampleWeek)).isGenerating = false ∧
    (handleSubmit (submitEnvOf (.error "Network Error"))
      (freshSubmitState crashForm)).isProcessing = false :=
  ⟨handlers_end_not_busy.1 _ selectedState (by simp [selectedState]),
    handlers_end_not_busy.2.2.1 _ _, handlers_end_not_busy.2.2.2 _ _⟩

end FeedbackPrioritizer
